import Mathlib

/-! Verification of todo-backend: a shallow embedding of the Todo core.

The development follows the layers of the repository, leaf first:

* `internal/domain/entities/todo.go`            : `Todo`, `NewTodo`
* `internal/domain/repositories`                : `TodoRepository`, `ErrTodoNotFound`
* `internal/infrastructure/database`            : `SQLiteTodoModel`, `SQLiteTodoRepository`
* `internal/application/usecases`               : `TodoUseCase`

Go values are embedded as follows.

* A Go `string` is a Lean `String`.
* A Go `int64` is an `Int`; where the code adds two of them the sum is wrapped by `wrapInt64`.
* A Go `error` is an `Option GoError` (`none` is the nil error).
* A Go `*entities.Todo` result is an `Option Todo` (`none` is the nil pointer); a Go slice
  result is an `Option (List Todo)` (`none` is the nil slice, `some []` the empty slice).
* A method with a side effect on a store takes the store and returns the new store.
* `context.Context` is passed through unchanged by every function and is left out.
-/

namespace TodoBackend

/-! ## Go library values -/

/-- Go error values as the code builds them. `sentinel` is a package-level variable
initialised with `errors.New` (its identity is its qualified name), `errorString` is a
freshly allocated error without a cause (`errors.New`, or `fmt.Errorf` with no `%w` verb),
`wrapError` is the result of `fmt.Errorf` with one `%w` verb. -/
inductive GoError where
  | sentinel (name : String) (msg : String)
  | errorString (msg : String)
  | wrapError (msg : String) (err : GoError)
  deriving DecidableEq, Repr

namespace GoError

/-- The method `Error()`. -/
def Error : GoError → String
  | sentinel _ msg => msg
  | errorString msg => msg
  | wrapError msg _ => msg

/-- Comparison `err == target` of two error interface values holding pointers: a
package-level sentinel is equal to itself only, and a freshly allocated error is never
equal to a package-level sentinel. -/
def ptrEq : GoError → GoError → Bool
  | sentinel a _, sentinel b _ => a == b
  | _, _ => false

end GoError

/-- Library function `errors.Unwrap`: the cause held by a `%w` error, nil otherwise. -/
def errorsUnwrap : GoError → Option GoError
  | .wrapError _ err => some err
  | _ => none

/-- Library function `errors.Is` for a package-level sentinel target: walks the chain of
causes and compares each link with the target. -/
def errorsIs : GoError → GoError → Bool
  | .wrapError msg err, target =>
      GoError.ptrEq (.wrapError msg err) target || errorsIs err target
  | err, target => GoError.ptrEq err target

/-- Library function `fmt.Errorf` for a format without a `%w` verb; `msg` is the
formatted text. -/
def fmtErrorf (msg : String) : GoError := .errorString msg

/-- Library function `fmt.Errorf` for a format `pre ++ "%w"` applied to a non-nil error:
the text is `pre` followed by the cause's message and the cause is kept. -/
def fmtErrorfW (pre : String) (err : GoError) : GoError :=
  .wrapError (pre ++ err.Error) err

/-- Substring test on messages (what `assert.Contains` checks on strings). -/
def strContains (s sub : String) : Prop := sub.data <:+: s.data

/-- A time zone handle of the Go library. -/
inductive Location where
  | UTC
  | Local
  | Fixed (name : String) (offset : Int)
  deriving DecidableEq, Repr

/-- Go library type `time.Time` without the monotonic clock reading: `sec` counts seconds
since January 1 of year 1, 00:00:00 UTC, `nsec` is the nanosecond of that second. -/
structure Time where
  sec : Int
  nsec : Nat
  loc : Location
  deriving DecidableEq, Repr

/-- Wrap-around of 64-bit signed arithmetic. -/
def wrapInt64 (x : Int) : Int := (x + 2 ^ 63) % 2 ^ 64 - 2 ^ 63

/-- Seconds from year 1 to 1970: (1969*365 + 1969/4 - 1969/100 + 1969/400) * 86400. -/
def unixToInternal : Int := (1969 * 365 + 1969 / 4 - 1969 / 100 + 1969 / 400) * 86400

/-- Seconds from 1970 back to year 1. -/
def internalToUnix : Int := -unixToInternal

/-- Method `Time.Unix()`: seconds since January 1, 1970 UTC. -/
def Time.Unix (t : Time) : Int := wrapInt64 (t.sec + internalToUnix)

/-- Method `Time.Before(u)` for two times without a monotonic clock reading. -/
def Time.Before (t u : Time) : Bool :=
  decide (t.sec < u.sec) || (decide (t.sec = u.sec) && decide (t.nsec < u.nsec))

/-- The values of Go type `int64`. -/
def isInt64 (x : Int) : Prop := -2 ^ 63 ≤ x ∧ x < 2 ^ 63

instance (x : Int) : Decidable (isInt64 x) := by unfold isInt64; infer_instance

/-- Library function `time.Unix(sec, 0)`: the local time of `sec` seconds since 1970. -/
def timeUnix0 (sec : Int) : Time :=
  { sec := wrapInt64 (sec + unixToInternal), nsec := 0, loc := .Local }

/-- Method `Time.After(u)` for two times without a monotonic clock reading. -/
def Time.After (t u : Time) : Bool :=
  decide (t.sec > u.sec) || (decide (t.sec = u.sec) && decide (t.nsec > u.nsec))

/-- Typing of a `time.Time`: the second count is an `int64` and the nanosecond lies in
[0, 999999999]. -/
def Time.wellTyped (t : Time) : Prop := isInt64 t.sec ∧ t.nsec < 1000000000

instance (t : Time) : Decidable t.wellTyped := by unfold Time.wellTyped; infer_instance

/-- A `time.Time` whose location is UTC: the result type of `Time.UTC()`. -/
structure UTCTime where
  sec : Int
  nsec : Nat
  deriving DecidableEq, Repr

/-- Method `Time.UTC()`: the same instant with the location set to UTC. -/
def Time.UTC (t : Time) : UTCTime := { sec := t.sec, nsec := t.nsec }

/-- The year of the absolute calendar's zero: `absoluteZeroYear`. -/
def absoluteZeroYear : Int := -292277022399

/-- Seconds from the absolute zero to year 1: (absoluteZeroYear - 1) * 365.2425 days. -/
def absoluteToInternal : Int := (absoluteZeroYear - 1) * 31556952

/-- Seconds from year 1 back to the absolute zero. -/
def internalToAbsolute : Int := -absoluteToInternal

/-- Seconds from 1970 back to the absolute zero. -/
def unixToAbsolute : Int := unixToInternal + internalToAbsolute

/-- Method `unixSec()` on a time in UTC. -/
def UTCTime.unixSec (t : UTCTime) : Int := wrapInt64 (t.sec + internalToUnix)

/-- Method `abs()` on a time in UTC (no zone offset is added): the seconds since the
absolute zero as a `uint64`. -/
def UTCTime.abs (t : UTCTime) : Nat := (wrapInt64 (t.unixSec + unixToAbsolute) % 2 ^ 64).toNat

/-- The table `daysBefore`: days of a non-leap year before each month, then 365. -/
def daysBefore : List Nat := [0, 31, 59, 90, 120, 151, 181, 212, 243, 273, 304, 334, 365]

/-- Library function `isLeap`. -/
def isLeap (year : Int) : Bool := year % 4 == 0 && (year % 100 != 0 || year % 400 == 0)

/-- A calendar date with the zero-based day of the year. -/
structure Date where
  year : Int
  month : Nat
  day : Nat
  yday : Nat
  deriving DecidableEq, Repr

/-- First half of library function `absDate`: the years since the absolute zero and the
zero-based day of the year, by cutting off 400-, 100- and 4-year cycles and years. -/
def absYearDay (abs : Nat) : Nat × Nat :=
  let d := abs / 86400
  let n := d / 146097
  let y := 400 * n
  let d := d - 146097 * n
  let n := d / 36524
  let n := n - n / 4
  let y := y + 100 * n
  let d := d - 36524 * n
  let n := d / 1461
  let y := y + 4 * n
  let d := d - 1461 * n
  let n := d / 365
  let n := n - n / 4
  let y := y + n
  let d := d - 365 * n
  (y, d)

/-- Second half of library function `absDate` (argument `full` true): month and day of
the month from the day of the year. -/
def dateOfYearDay (year : Int) (yday : Nat) : Date :=
  if isLeap year && yday == 31 + 29 - 1 then
    { year := year, month := 2, day := 29, yday := yday }
  else
    let day := if isLeap year && yday > 31 + 29 - 1 then yday - 1 else yday
    let month := day / 31
    let stop := daysBefore.getD (month + 1) 0
    if day ≥ stop then
      { year := year, month := month + 2, day := day - stop + 1, yday := yday }
    else
      { year := year, month := month + 1, day := day - daysBefore.getD month 0 + 1,
        yday := yday }

/-- Library function `absDate`, with the cycle arithmetic of Go 1.22 and earlier, counted
from January 1 of the absolute zero year. `absDate_civil` shows that the result is the
proleptic Gregorian date of the absolute second count. -/
def absDate (abs : Nat) : Date :=
  dateOfYearDay (((absYearDay abs).1 : Int) + absoluteZeroYear) (absYearDay abs).2

/-- A time of day. -/
structure Clock where
  hour : Nat
  min : Nat
  sec : Nat
  deriving DecidableEq, Repr

/-- Library function `absClock`. -/
def absClock (abs : Nat) : Clock :=
  let sec := abs % 86400
  let hour := sec / 3600
  let sec := sec - hour * 3600
  let min := sec / 60
  let sec := sec - min * 60
  { hour := hour, min := min, sec := sec }

/-- The byte `'0' + d`. -/
def digitChar (d : Nat) : Char := Char.ofNat (48 + d)

/-- The decimal digits of `u`, most significant first, as `appendInt` assembles them in
its buffer of 20 bytes (`fuel` is the room left in the buffer). -/
def decimalDigits : Nat → Nat → List Char
  | 0, _ => []
  | fuel + 1, u =>
      if u < 10 then [digitChar u]
      else decimalDigits fuel (u / 10) ++ [digitChar (u % 10)]

/-- Library function `appendInt` of package time: the bytes appended for `x` with minimal
`width`: a minus sign for a negative `x`, zeros up to the width, the decimal digits. -/
def appendInt (x : Int) (width : Nat) : List Char :=
  let digits := decimalDigits 20 x.natAbs
  (if x < 0 then ['-'] else []) ++ List.replicate (width - digits.length) '0' ++ digits

/-- The `w` low decimal digits of `u`, most significant first: what a zero-padded field
of width `w` shows for `u < 10 ^ w`. -/
def fixedDigits : Nat → Nat → List Char
  | 0, _ => []
  | w + 1, u => fixedDigits w (u / 10) ++ [digitChar (u % 10)]

/-- The layout elements of package time. -/
inductive Std where
  | stdLongMonth | stdMonth | stdNumMonth | stdZeroMonth
  | stdLongWeekDay | stdWeekDay
  | stdDay | stdUnderDay | stdZeroDay | stdUnderYearDay | stdZeroYearDay
  | stdHour | stdHour12 | stdZeroHour12
  | stdMinute | stdZeroMinute | stdSecond | stdZeroSecond
  | stdLongYear | stdYear
  | stdPM | stdpm
  | stdTZ
  | stdISO8601TZ | stdISO8601SecondsTZ | stdISO8601ShortTZ | stdISO8601ColonTZ
  | stdISO8601ColonSecondsTZ
  | stdNumTZ | stdNumSecondsTz | stdNumShortTZ | stdNumColonTZ | stdNumColonSecondsTZ
  | stdFracSecond0 (digits : Nat) (sep : Char)
  | stdFracSecond9 (digits : Nat) (sep : Char)
  deriving DecidableEq, Repr

/-- Test `layout[i:i+n] == p` with the length check that precedes it. -/
def hasPrefix (p : String) (layout : List Char) : Bool := p.data.isPrefixOf layout

/-- Library function `startsWithLowerCase`. -/
def startsWithLowerCase : List Char → Bool
  | [] => false
  | c :: _ => decide ('a' ≤ c) && decide (c ≤ 'z')

/-- Library function `isDigit(s, 0)`. -/
def isDigitAt0 : List Char → Bool
  | [] => false
  | c :: _ => decide ('0' ≤ c) && decide (c ≤ '9')

/-- The table `std0x`, indexed by the digit after a `0`. -/
def std0x (c : Char) : Std :=
  if c = '1' then .stdZeroMonth else if c = '2' then .stdZeroDay
  else if c = '3' then .stdZeroHour12 else if c = '4' then .stdZeroMinute
  else if c = '5' then .stdZeroSecond else .stdYear

/-- One position of the scan of `nextStdChunk`: the layout element that starts at the
head of `layout`, if any, with the literal bytes that go to the prefix with it and the
rest of the layout after the element. -/
def stdChunkAt (layout : List Char) : Option (List Char × Std × List Char) :=
  match layout with
  | [] => none
  | c :: rest =>
    if c = 'J' then
      if hasPrefix "Jan" layout then
        if hasPrefix "January" layout then some ([], .stdLongMonth, layout.drop 7)
        else if !startsWithLowerCase (layout.drop 3) then some ([], .stdMonth, layout.drop 3)
        else none
      else none
    else if c = 'M' then
      if hasPrefix "Mon" layout then
        if hasPrefix "Monday" layout then some ([], .stdLongWeekDay, layout.drop 6)
        else if !startsWithLowerCase (layout.drop 3) then some ([], .stdWeekDay, layout.drop 3)
        else none
      else if hasPrefix "MST" layout then some ([], .stdTZ, layout.drop 3)
      else none
    else if c = '0' then
      match rest with
      | c1 :: rest1 =>
        if '1' ≤ c1 ∧ c1 ≤ '6' then some ([], std0x c1, rest1)
        else if hasPrefix "002" layout then some ([], .stdZeroYearDay, layout.drop 3)
        else none
      | [] => none
    else if c = '1' then
      if hasPrefix "15" layout then some ([], .stdHour, layout.drop 2)
      else some ([], .stdNumMonth, rest)
    else if c = '2' then
      if hasPrefix "2006" layout then some ([], .stdLongYear, layout.drop 4)
      else some ([], .stdDay, rest)
    else if c = '_' then
      if hasPrefix "_2" layout then
        if hasPrefix "_2006" layout then some (['_'], .stdLongYear, layout.drop 5)
        else some ([], .stdUnderDay, layout.drop 2)
      else if hasPrefix "__2" layout then some ([], .stdUnderYearDay, layout.drop 3)
      else none
    else if c = '3' then some ([], .stdHour12, rest)
    else if c = '4' then some ([], .stdMinute, rest)
    else if c = '5' then some ([], .stdSecond, rest)
    else if c = 'P' then
      if hasPrefix "PM" layout then some ([], .stdPM, layout.drop 2) else none
    else if c = 'p' then
      if hasPrefix "pm" layout then some ([], .stdpm, layout.drop 2) else none
    else if c = '-' then
      if hasPrefix "-070000" layout then some ([], .stdNumSecondsTz, layout.drop 7)
      else if hasPrefix "-07:00:00" layout then some ([], .stdNumColonSecondsTZ, layout.drop 9)
      else if hasPrefix "-0700" layout then some ([], .stdNumTZ, layout.drop 5)
      else if hasPrefix "-07:00" layout then some ([], .stdNumColonTZ, layout.drop 6)
      else if hasPrefix "-07" layout then some ([], .stdNumShortTZ, layout.drop 3)
      else none
    else if c = 'Z' then
      if hasPrefix "Z070000" layout then some ([], .stdISO8601SecondsTZ, layout.drop 7)
      else if hasPrefix "Z07:00:00" layout then
        some ([], .stdISO8601ColonSecondsTZ, layout.drop 9)
      else if hasPrefix "Z0700" layout then some ([], .stdISO8601TZ, layout.drop 5)
      else if hasPrefix "Z07:00" layout then some ([], .stdISO8601ColonTZ, layout.drop 6)
      else if hasPrefix "Z07" layout then some ([], .stdISO8601ShortTZ, layout.drop 3)
      else none
    else if c = '.' ∨ c = ',' then
      match rest with
      | ch :: _ =>
        if ch = '0' ∨ ch = '9' then
          let run := rest.takeWhile (· == ch)
          let after := rest.dropWhile (· == ch)
          if !isDigitAt0 after then
            some ([], if ch = '9' then .stdFracSecond9 run.length c
                      else .stdFracSecond0 run.length c, after)
          else none
        else none
      | [] => none
    else none

/-- Library function `nextStdChunk`: the literal prefix, the first layout element (none
when the layout holds no element) and the rest of the layout. -/
def nextStdChunk : List Char → List Char × Option Std × List Char
  | [] => ([], none, [])
  | c :: rest =>
    match stdChunkAt (c :: rest) with
    | some (lit, std, suffix) => (lit, some std, suffix)
    | none =>
      match nextStdChunk rest with
      | (pre, std, suffix) => (c :: pre, std, suffix)

/-- The table `longMonthNames`. -/
def longMonthNames : List String :=
  ["January", "February", "March", "April", "May", "June", "July", "August", "September",
   "October", "November", "December"]

/-- The table `longDayNames`. -/
def longDayNames : List String :=
  ["Sunday", "Monday", "Tuesday", "Wednesday", "Thursday", "Friday", "Saturday"]

/-- Library function `absWeekday`: the absolute calendar starts on a Monday. -/
def absWeekday (abs : Nat) : Nat := (abs + 1 * 86400) % 2 ^ 64 % (7 * 86400) / 86400

/-- Library function `appendNano`: the separator and the first `n` of the nine digits of
the nanosecond; with `trim` (layout digits 9) trailing zeros and a bare separator go. -/
def appendNano (nanosec : Nat) (n : Nat) (sep : Char) (trim : Bool) : List Char :=
  if trim && (n == 0 || nanosec == 0) then []
  else
    let b := sep :: appendInt nanosec 9
    let b := if n < 9 then b.take (b.length - 9 + n) else b
    if trim then
      let b := (b.reverse.dropWhile (· == '0')).reverse
      match b.reverse with
      | c :: before => if c == '.' || c == ',' then before.reverse else b
      | [] => b
    else b

/-- The hour on the 12-hour clock: noon is 12PM, midnight is 12AM. -/
def hour12 (hour : Nat) : Nat := if hour % 12 = 0 then 12 else hour % 12

/-- One case of the switch in `Time.AppendFormat`, for a time in UTC (zone name "UTC",
offset 0): the bytes appended for one layout element. -/
def appendStd (t : UTCTime) (std : Std) : List Char :=
  let date := absDate t.abs
  let clock := absClock t.abs
  match std with
  | .stdYear => appendInt (((date.year.natAbs : Int)) % 100) 2
  | .stdLongYear => appendInt date.year 4
  | .stdMonth => ((longMonthNames.getD (date.month - 1) "").data).take 3
  | .stdLongMonth => (longMonthNames.getD (date.month - 1) "").data
  | .stdNumMonth => appendInt date.month 0
  | .stdZeroMonth => appendInt date.month 2
  | .stdWeekDay => ((longDayNames.getD (absWeekday t.abs) "").data).take 3
  | .stdLongWeekDay => (longDayNames.getD (absWeekday t.abs) "").data
  | .stdDay => appendInt date.day 0
  | .stdUnderDay => (if date.day < 10 then [' '] else []) ++ appendInt date.day 0
  | .stdZeroDay => appendInt date.day 2
  | .stdUnderYearDay =>
      (if date.yday + 1 < 100 then ' ' :: (if date.yday + 1 < 10 then [' '] else []) else [])
        ++ appendInt (date.yday + 1 : Nat) 0
  | .stdZeroYearDay => appendInt (date.yday + 1 : Nat) 3
  | .stdHour => appendInt clock.hour 2
  | .stdHour12 => appendInt (hour12 clock.hour) 0
  | .stdZeroHour12 => appendInt (hour12 clock.hour) 2
  | .stdMinute => appendInt clock.min 0
  | .stdZeroMinute => appendInt clock.min 2
  | .stdSecond => appendInt clock.sec 0
  | .stdZeroSecond => appendInt clock.sec 2
  | .stdPM => if clock.hour ≥ 12 then "PM".data else "AM".data
  | .stdpm => if clock.hour ≥ 12 then "pm".data else "am".data
  | .stdISO8601TZ | .stdISO8601ColonTZ | .stdISO8601SecondsTZ | .stdISO8601ShortTZ
  | .stdISO8601ColonSecondsTZ => ['Z']
  | .stdNumTZ => "+0000".data
  | .stdNumColonTZ => "+00:00".data
  | .stdNumSecondsTz => "+000000".data
  | .stdNumShortTZ => "+00".data
  | .stdNumColonSecondsTZ => "+00:00:00".data
  | .stdTZ => "UTC".data
  | .stdFracSecond0 n sep => appendNano t.nsec n sep false
  | .stdFracSecond9 n sep => appendNano t.nsec n sep true

/-- The loop of `Time.AppendFormat`; each round consumes at least one byte of the layout,
so a `fuel` of the length of the layout is enough. -/
def appendFormat : Nat → UTCTime → List Char → List Char
  | 0, _, _ => []
  | fuel + 1, t, layout =>
    if layout = [] then []
    else
      match nextStdChunk layout with
      | (pre, none, _) => pre
      | (pre, some std, suffix) => pre ++ appendStd t std ++ appendFormat fuel t suffix

/-- Method `Format(layout)` of a time in UTC. -/
def UTCTime.Format (t : UTCTime) (layout : String) : String :=
  String.mk (appendFormat layout.length t layout.data)

/-- One element of a pattern: a decimal digit `\d` or a literal byte. -/
inductive PatElem where
  | digit
  | lit (c : Char)
  deriving DecidableEq, Repr

/-- Anchored match of a string against a sequence of pattern elements. -/
def matchPat : List PatElem → List Char → Bool
  | [], [] => true
  | .digit :: p, c :: s => c.isDigit && matchPat p s
  | .lit a :: p, c :: s => (c == a) && matchPat p s
  | _, _ => false

/-- The pattern `^\d\d\d\d-\d\d-\d\dT\d\d:\d\d:\d\d\.\d\d\dZ$` of the contract test. -/
def contractTimePattern : List PatElem :=
  [.digit, .digit, .digit, .digit, .lit '-', .digit, .digit, .lit '-', .digit, .digit,
   .lit 'T', .digit, .digit, .lit ':', .digit, .digit, .lit ':', .digit, .digit, .lit '.',
   .digit, .digit, .digit, .lit 'Z']

/-! ## github.com/google/uuid -/

/-- Typing of a UUID value: 16 bytes. -/
def isUUID (u : List Nat) : Prop := u.length = 16 ∧ ∀ b ∈ u, b < 256

instance (u : List Nat) : Decidable (isUUID u) := by unfold isUUID; infer_instance

/-- Library function `uuid.New()` given the 16 bytes `rnd` read from the random source:
the version (4) and variant (10) bits are set in bytes 6 and 8. -/
def uuidNew (rnd : List Nat) : List Nat :=
  (rnd.set 6 (rnd.getD 6 0 % 16 + 64)).set 8 (rnd.getD 8 0 % 64 + 128)

/-- The table `hextable` of package encoding/hex. -/
def hexDigit (n : Nat) : Char := "0123456789abcdef".data.getD n '0'

/-- Library function `hex.Encode`: two lower-case hexadecimal digits per byte. -/
def hexEncode : List Nat → List Char
  | [] => []
  | b :: bs => hexDigit (b / 16) :: hexDigit (b % 16) :: hexEncode bs

/-- Method `UUID.String()`: the form xxxxxxxx-xxxx-xxxx-xxxx-xxxxxxxxxxxx. -/
def uuidString (u : List Nat) : String :=
  String.mk (hexEncode (u.take 4) ++ '-' :: hexEncode ((u.drop 4).take 2)
    ++ '-' :: hexEncode ((u.drop 6).take 2) ++ '-' :: hexEncode ((u.drop 8).take 2)
    ++ '-' :: hexEncode (u.drop 10))

/-! ## internal/domain/entities/todo.go -/

/-- File todo.go, type `Todo`. -/
structure Todo where
  ID : String
  Text : String
  CreatedAt : Time
  UpdatedAt : Time
  deriving DecidableEq, Repr

/-- File todo.go, `NewTodo`. The two readings of the environment are arguments: `uuid` is
the value of `uuid.New().String()` and `now` the value of `time.Now()`. -/
def NewTodo (uuid : String) (now : Time) (text : String) : Todo :=
  { ID := uuid, Text := text, CreatedAt := now, UpdatedAt := now }

/-! ## internal/domain/repositories/todo_repository.go -/

/-- Package variable `repositories.ErrTodoNotFound`. -/
def ErrTodoNotFound : GoError := .sentinel "repositories.ErrTodoNotFound" "todo not found"

/-- Package variable `repositories.ErrTodoExists`. -/
def ErrTodoExists : GoError := .sentinel "repositories.ErrTodoExists" "todo already exists"

/-- Interface `TodoRepository` over a store of type `σ`: every method returns its Go
result pair and the store after the call. -/
structure TodoRepository (σ : Type) where
  Create : Todo → σ → (Option Todo × Option GoError) × σ
  GetAll : σ → (Option (List Todo) × Option GoError) × σ
  GetByID : String → σ → (Option Todo × Option GoError) × σ

/-- One call received by a repository. -/
inductive RepoCall where
  | Create (todo : Todo)
  | GetAll
  | GetByID (id : String)
  deriving DecidableEq, Repr

/-- A repository that behaves as `r` and also appends every call it receives to a log
(the record that `mock.Mock` keeps in the unit tests and `AssertNotCalled` reads). -/
def TodoRepository.recorded {σ : Type} (r : TodoRepository σ) :
    TodoRepository (σ × List RepoCall) where
  Create todo s := ((r.Create todo s.1).1, ((r.Create todo s.1).2, s.2 ++ [.Create todo]))
  GetAll s := ((r.GetAll s.1).1, ((r.GetAll s.1).2, s.2 ++ [.GetAll]))
  GetByID id s := ((r.GetByID id s.1).1, ((r.GetByID id s.1).2, s.2 ++ [.GetByID id]))

/-- File todo_usecase_test.go, `MockTodoRepository`, with one configured return per
method (`On(...).Return(...)`): every method logs the call and returns what was
configured. The store of the mock is its log of calls. -/
def MockTodoRepository (onCreate : Option Todo × Option GoError)
    (onGetAll : Option (List Todo) × Option GoError)
    (onGetByID : Option Todo × Option GoError) : TodoRepository (List RepoCall) where
  Create todo calls := (onCreate, calls ++ [.Create todo])
  GetAll calls := (onGetAll, calls ++ [.GetAll])
  GetByID id calls := (onGetByID, calls ++ [.GetByID id])

/-! ## internal/infrastructure/database -/

/-- File utils.go, `timeFromUnix`. -/
def timeFromUnix (unix : Int) : Time := timeUnix0 unix

/-- File sqlite_todo_repository.go, type `SQLiteTodoModel`: one row of table `todos`. -/
structure SQLiteTodoModel where
  ID : String
  Text : String
  CreatedAt : Int
  UpdatedAt : Int
  deriving DecidableEq, Repr

/-- The zero value `SQLiteTodoModel{}`. -/
def SQLiteTodoModel.zero : SQLiteTodoModel :=
  { ID := "", Text := "", CreatedAt := 0, UpdatedAt := 0 }

/-- File sqlite_todo_repository.go, `ToEntity`: the new Todo and the (always nil) error. -/
def SQLiteTodoModel.ToEntity (tm : SQLiteTodoModel) : Todo × Option GoError :=
  ({ ID := tm.ID
     Text := tm.Text
     CreatedAt := timeFromUnix tm.CreatedAt
     UpdatedAt := timeFromUnix tm.UpdatedAt }, none)

/-- File sqlite_todo_repository.go, `FromEntity`: the receiver after the four assignments. -/
def SQLiteTodoModel.FromEntity (_tm : SQLiteTodoModel) (todo : Todo) : SQLiteTodoModel :=
  { ID := todo.ID
    Text := todo.Text
    CreatedAt := todo.CreatedAt.Unix
    UpdatedAt := todo.UpdatedAt.Unix }

/-- The content of the handle `*gorm.DB`: the rows of table `todos`, oldest insertion
first. The store is the keyed store of the specification (create, list ordered by
creation time, get by key). -/
structure DB where
  rows : List SQLiteTodoModel
  deriving DecidableEq, Repr

/-- Typing of the two time columns: every stored second count is an `int64`. -/
def DB.int64Columns (db : DB) : Prop :=
  ∀ m ∈ db.rows, isInt64 m.CreatedAt ∧ isInt64 m.UpdatedAt

/-- The stored `created_at` values for which `time.Unix` does not wrap around: the
second counts that a `time.Time` can hold. -/
def DB.createdAtInTimeRange (db : DB) : Prop :=
  ∀ m ∈ db.rows, isInt64 m.CreatedAt ∧ isInt64 (m.CreatedAt + unixToInternal)

/-- The primary key constraint of table `todos`: no two rows share an id. -/
def DB.keysUnique (db : DB) : Prop := (db.rows.map (·.ID)).Nodup

/-- What the storage engine does with one statement: it fails with `fault` when that is
set (an I/O failure), and `curTime` is the second count of its clock, which gorm writes
into a zero `autoCreateTime` or `autoUpdateTime` field on insert. -/
structure Exec where
  fault : Option GoError
  curTime : Int
  deriving DecidableEq, Repr

/-- The error of the engine for an insert that repeats a primary key. -/
def errUniqueConstraint : GoError := .errorString "UNIQUE constraint failed: todos.id"

/-- Package variable `gorm.ErrRecordNotFound`. -/
def gormErrRecordNotFound : GoError := .sentinel "gorm.ErrRecordNotFound" "record not found"

/-- Fill of an `autoCreateTime`/`autoUpdateTime` column on insert: a zero value becomes
the clock's second count. -/
def autoTime (curTime v : Int) : Int := if v = 0 then curTime else v

/-- The model that an insert leaves behind: the given one with its zero time columns
filled from the clock. -/
def filledModel (x : Exec) (model : SQLiteTodoModel) : SQLiteTodoModel :=
  { model with CreatedAt := autoTime x.curTime model.CreatedAt
               UpdatedAt := autoTime x.curTime model.UpdatedAt }

/-- Library call `db.Create(model).Error`: the error, the model as the call leaves it and
the table after the call. The row is appended unless the engine fails or the key exists. -/
def gormCreate (x : Exec) (model : SQLiteTodoModel) (db : DB) :
    (Option GoError × SQLiteTodoModel) × DB :=
  let filled := filledModel x model
  match x.fault with
  | some err => ((some err, filled), db)
  | none =>
      if db.rows.any (fun r => r.ID == filled.ID) then
        ((some errUniqueConstraint, filled), db)
      else
        ((none, filled), { rows := db.rows ++ [filled] })

/-- Order of `ORDER BY created_at DESC`: `a` may stand before `b`. -/
def createdAtDesc (a b : SQLiteTodoModel) : Prop := b.CreatedAt ≤ a.CreatedAt

instance : DecidableRel createdAtDesc := fun a b => Int.decLe b.CreatedAt a.CreatedAt

instance : IsTotal SQLiteTodoModel createdAtDesc :=
  ⟨fun a b => Int.le_total b.CreatedAt a.CreatedAt⟩

instance : IsTrans SQLiteTodoModel createdAtDesc :=
  ⟨fun _ _ _ hab hbc => Int.le_trans hbc hab⟩

/-- Library call `db.Order("created_at DESC").Find(&models).Error`: the error and the
rows read, sorted by `created_at` descending (rows with equal `created_at` keep their
insertion order). -/
def gormFindOrdered (x : Exec) (db : DB) : Option GoError × List SQLiteTodoModel :=
  match x.fault with
  | some err => (some err, [])
  | none => (none, db.rows.insertionSort createdAtDesc)

/-- Library call `db.Where("id = ?", id).First(&model).Error`: the error and the row read;
`gorm.ErrRecordNotFound` when no row has the id. -/
def gormFirstByID (x : Exec) (id : String) (db : DB) : Option GoError × SQLiteTodoModel :=
  match x.fault with
  | some err => (some err, SQLiteTodoModel.zero)
  | none =>
      match db.rows.find? (fun r => r.ID == id) with
      | some row => (none, row)
      | none => (some gormErrRecordNotFound, SQLiteTodoModel.zero)

namespace SQLiteTodoRepository

/-- File sqlite_todo_repository.go, `Create`. -/
def Create (x : Exec) (todo : Todo) (db : DB) : (Option Todo × Option GoError) × DB :=
  let model := SQLiteTodoModel.zero.FromEntity todo
  match gormCreate x model db with
  | ((some err, _), db') => ((none, some (fmtErrorfW "failed to create todo: " err)), db')
  | ((none, stored), db') => ((some stored.ToEntity.1, stored.ToEntity.2), db')

/-- The loop of `GetAll`: converts the models in order and stops at the first conversion
error. -/
def convertModels : List SQLiteTodoModel → Option (List Todo) × Option GoError
  | [] => (some [], none)
  | model :: rest =>
      match model.ToEntity with
      | (_, some err) => (none, some (fmtErrorfW "failed to convert todo model: " err))
      | (todo, none) =>
          match convertModels rest with
          | (some todos, none) => (some (todo :: todos), none)
          | failed => failed

/-- File sqlite_todo_repository.go, `GetAll`. -/
def GetAll (x : Exec) (db : DB) : (Option (List Todo) × Option GoError) × DB :=
  match gormFindOrdered x db with
  | (some err, _) => ((none, some (fmtErrorfW "failed to get todos: " err)), db)
  | (none, models) => (convertModels models, db)

/-- File sqlite_todo_repository.go, `GetByID`. -/
def GetByID (x : Exec) (id : String) (db : DB) : (Option Todo × Option GoError) × DB :=
  match gormFirstByID x id db with
  | (some err, _) =>
      if GoError.ptrEq err gormErrRecordNotFound then
        ((none, some ErrTodoNotFound), db)
      else
        ((none, some (fmtErrorfW "failed to get todo: " err)), db)
  | (none, model) => ((some model.ToEntity.1, model.ToEntity.2), db)

end SQLiteTodoRepository

/-- File sqlite_todo_repository.go, `NewSQLiteTodoRepository`: the repository as a
`TodoRepository` over the table, for an engine that treats each statement as `x` says. -/
def NewSQLiteTodoRepository (x : Exec) : TodoRepository DB where
  Create := SQLiteTodoRepository.Create x
  GetAll := SQLiteTodoRepository.GetAll x
  GetByID := SQLiteTodoRepository.GetByID x

/-- A Todo converted to the storage model and back: `FromEntity` followed by `ToEntity`. -/
def storeRoundTrip (todo : Todo) : Todo := (SQLiteTodoModel.zero.FromEntity todo).ToEntity.1

/-- A text of 501 characters. -/
def text501 : String := String.mk (List.replicate 501 'a')

/-! ## internal/interfaces/dto/todo_dto.go -/

/-- File todo_dto.go, type `CreateTodoRequest`. -/
structure CreateTodoRequest where
  Text : String
  deriving DecidableEq, Repr

/-- File todo_dto.go, `CreateTodoRequest.ToEntity`. -/
def CreateTodoRequest.ToEntity (req : CreateTodoRequest) (uuid : String) (now : Time) : Todo :=
  NewTodo uuid now req.Text

/-! ## internal/interfaces/dto/contract_dto.go -/

/-- File contract_dto.go, type `ContractTodoResponse`. -/
structure ContractTodoResponse where
  ID : String
  Text : String
  CreatedAt : String
  deriving DecidableEq, Repr

/-- File contract_dto.go, `formatTimeForContract`. -/
def formatTimeForContract (t : Time) : String :=
  let utc := t.UTC
  utc.Format "2006-01-02T15:04:05.000Z"

/-- File contract_dto.go, `ToContractTodoResponse`. -/
def ToContractTodoResponse (todo : Todo) : ContractTodoResponse :=
  { ID := todo.ID
    Text := todo.Text
    CreatedAt := formatTimeForContract todo.CreatedAt }

/-- File contract_dto.go, `ToContractTodoList`: `none` is the nil slice, for which `len`
is 0 as for the empty slice. -/
def ToContractTodoList (todos : Option (List Todo)) : Option (List ContractTodoResponse) :=
  if (todos.getD []).length = 0 then
    some []
  else
    some ((todos.getD []).map ToContractTodoResponse)

/-- JSON values. -/
inductive JSON where
  | null
  | string (s : String)
  | array (items : List JSON)
  | object (members : List (String × JSON))

/-- The names of the members of a JSON object, in order. -/
def JSON.keys : JSON → List String
  | .object members => members.map (·.1)
  | _ => []

/-- Library function `json.Marshal` on a `ContractTodoResponse`: one member per field, named
by the field's `json` tag, in the order of declaration. -/
def ContractTodoResponse.marshal (r : ContractTodoResponse) : JSON :=
  .object [("id", .string r.ID), ("text", .string r.Text), ("createdAt", .string r.CreatedAt)]

/-- Library function `json.Marshal` on a `[]ContractTodoResponse`: `null` for the nil
slice, an array otherwise. -/
def marshalContractTodoList : Option (List ContractTodoResponse) → JSON
  | none => .null
  | some rs => .array (rs.map (·.marshal))

/-! ## internal/application/usecases/todo_usecase.go -/

/-- File todo_usecase.go, type `TodoUseCase`. -/
structure TodoUseCase (σ : Type) where
  todoRepo : TodoRepository σ

/-- File todo_usecase.go, `NewTodoUseCase`. -/
def NewTodoUseCase {σ : Type} (todoRepo : TodoRepository σ) : TodoUseCase σ :=
  { todoRepo := todoRepo }

namespace TodoUseCase

variable {σ : Type}

/-- File todo_usecase.go, `CreateTodo`. -/
def CreateTodo (uc : TodoUseCase σ) (uuid : String) (now : Time) (req : CreateTodoRequest)
    (s : σ) : (Option Todo × Option GoError) × σ :=
  if req.Text = "" then
    ((none, some (fmtErrorf "todo text cannot be empty")), s)
  else
    let todo := req.ToEntity uuid now
    match uc.todoRepo.Create todo s with
    | ((_, some err), s') => ((none, some (fmtErrorfW "failed to create todo: " err)), s')
    | ((created, none), s') => ((created, none), s')

/-- File todo_usecase.go, `GetAllTodos`. -/
def GetAllTodos (uc : TodoUseCase σ) (s : σ) : (Option (List Todo) × Option GoError) × σ :=
  match uc.todoRepo.GetAll s with
  | ((_, some err), s') => ((none, some (fmtErrorfW "failed to get todos: " err)), s')
  | ((todos, none), s') => ((todos, none), s')

/-- File todo_usecase.go, `GetTodoByID`. -/
def GetTodoByID (uc : TodoUseCase σ) (id : String) (s : σ) :
    (Option Todo × Option GoError) × σ :=
  if id = "" then
    ((none, some (fmtErrorf "todo ID cannot be empty")), s)
  else
    match uc.todoRepo.GetByID id s with
    | ((_, some err), s') =>
        if errorsIs err ErrTodoNotFound then
          ((none, some (fmtErrorf ("todo with ID " ++ id ++ " not found"))), s')
        else
          ((none, some (fmtErrorfW "failed to get todo: " err)), s')
    | ((todo, none), s') => ((todo, none), s')

end TodoUseCase

/-! ## The proleptic Gregorian calendar

The calendar against which the date arithmetic of package time is checked. These
definitions state what a calendar date is; they are not code of the repository. -/

/-- Leap years of the Gregorian calendar: the years divisible by 4, except those divisible
by 100 and not by 400. -/
def civilLeap (y : Int) : Prop := y % 4 = 0 ∧ (y % 100 ≠ 0 ∨ y % 400 = 0)

instance (y : Int) : Decidable (civilLeap y) := by unfold civilLeap; infer_instance

/-- The number of days of year `y`. -/
def civilDaysInYear (y : Int) : Nat := if civilLeap y then 366 else 365

/-- The number of days of month `m` (1 = January) of year `y`. -/
def civilDaysInMonth (y : Int) (m : Nat) : Nat :=
  if m = 2 then (if civilLeap y then 29 else 28)
  else if m = 4 ∨ m = 6 ∨ m = 9 ∨ m = 11 then 30
  else 31

/-- The days from 1970-01-01 to January 1 of year `y` (negative before 1970): 365 per
year plus one per leap year in between. -/
def civilYearStart (y : Int) : Int :=
  365 * (y - 1970) + ((y - 1) / 4 - (y - 1) / 100 + (y - 1) / 400) - 477

/-- The days of year `y` before month `m`: the lengths of the months 1 to `m - 1`. -/
def civilDaysBeforeMonth (y : Int) (m : Nat) : Nat :=
  ((List.range (m - 1)).map (fun k => civilDaysInMonth y (k + 1))).sum

/-- The second count since 1970-01-01 00:00:00 UTC of the calendar date `y`-`m`-`d` at
`h`:`mi`:`s` UTC. -/
def civilUnixSecond (y : Int) (m d h mi s : Nat) : Int :=
  (civilYearStart y + civilDaysBeforeMonth y m + ((d : Int) - 1)) * 86400
    + h * 3600 + mi * 60 + s

/-- A date and time of day that exist in the calendar. -/
def civilValid (y : Int) (m d h mi s : Nat) : Prop :=
  1 ≤ m ∧ m ≤ 12 ∧ 1 ≤ d ∧ d ≤ civilDaysInMonth y m ∧ h < 24 ∧ mi < 60 ∧ s < 60

/-- The number that a decimal numeral denotes. -/
def decimalValue (cs : List Char) : Nat := cs.foldl (fun acc c => 10 * acc + (c.toNat - 48)) 0

/-! ## Theorems -/

/-! ### Facts about the store -/

theorem gormCreate_model (x : Exec) (model : SQLiteTodoModel) (db : DB) :
    (gormCreate x model db).1.2 = filledModel x model := by
  unfold gormCreate filledModel
  cases x.fault with
  | some err => rfl
  | none =>
    simp only
    split <;> rfl

theorem gormCreate_ok_iff (x : Exec) (model : SQLiteTodoModel) (db : DB) :
    (gormCreate x model db).1.1 = none ↔
      x.fault = none ∧ ∀ r ∈ db.rows, r.ID ≠ model.ID := by
  unfold gormCreate
  cases hf : x.fault with
  | some err => simp
  | none =>
    simp only
    split
    · rename_i h
      simp only [List.any_eq_true, beq_iff_eq] at h
      obtain ⟨r, hr, hid⟩ := h
      simp only [reduceCtorEq, true_and, false_iff, not_forall]
      exact ⟨r, hr, fun hne => hne hid⟩
    · rename_i h
      simp only [List.any_eq_true, beq_iff_eq, not_exists, not_and] at h
      simpa using h

theorem gormCreate_ok_db (x : Exec) (model : SQLiteTodoModel) (db : DB)
    (hok : (gormCreate x model db).1.1 = none) :
    (gormCreate x model db).2 = { rows := db.rows ++ [filledModel x model] } := by
  have h := (gormCreate_ok_iff x model db).1 hok
  unfold gormCreate filledModel
  rw [h.1]
  simp only
  split
  · rename_i hany
    simp only [List.any_eq_true, beq_iff_eq] at hany
    obtain ⟨r, hr, hid⟩ := hany
    exact absurd hid (h.2 r hr)
  · rfl

theorem gormCreate_fail_db (x : Exec) (model : SQLiteTodoModel) (db : DB) (err : GoError)
    (hko : (gormCreate x model db).1.1 = some err) :
    (gormCreate x model db).2 = db := by
  unfold gormCreate at hko ⊢
  cases hf : x.fault with
  | some e => simp
  | none =>
    rw [hf] at hko
    simp only at hko ⊢
    split
    · rfl
    · rename_i h
      rw [if_neg h] at hko
      cases hko

theorem wrapInt64_of_isInt64 (x : Int) (h : isInt64 x) : wrapInt64 x = x := by
  unfold isInt64 at h
  unfold wrapInt64
  omega

theorem wrapInt64_shift (c k : Int) : wrapInt64 (wrapInt64 (c + k) - k) = wrapInt64 c := by
  unfold wrapInt64
  omega

/-- Reading the second count of `timeFromUnix c` gives `c` back, for every `int64`. -/
theorem unix_timeFromUnix (c : Int) (h : isInt64 c) : (timeFromUnix c).Unix = c := by
  have h1 : (timeFromUnix c).Unix
      = wrapInt64 (wrapInt64 (c + unixToInternal) - unixToInternal) := by
    simp [timeFromUnix, timeUnix0, Time.Unix, internalToUnix, sub_eq_add_neg]
  rw [h1, wrapInt64_shift, wrapInt64_of_isInt64 c h]

/-- The loop of `GetAll` converts every model, in order. -/
theorem convertModels_eq (models : List SQLiteTodoModel) :
    SQLiteTodoRepository.convertModels models = (some (models.map (·.ToEntity.1)), none) := by
  induction models with
  | nil => rfl
  | cons m ms ih => simp [SQLiteTodoRepository.convertModels, ih, SQLiteTodoModel.ToEntity]

theorem sqliteGetAll_ok (x : Exec) (db : DB) (hx : x.fault = none) :
    SQLiteTodoRepository.GetAll x db =
      ((some ((db.rows.insertionSort createdAtDesc).map (·.ToEntity.1)), none), db) := by
  simp [SQLiteTodoRepository.GetAll, gormFindOrdered, hx, convertModels_eq]

/-- The Go code of `Create`, stated by the outcome of the insert. -/
theorem sqliteCreate_ok (x : Exec) (todo : Todo) (db : DB)
    (hok : (gormCreate x (SQLiteTodoModel.zero.FromEntity todo) db).1.1 = none) :
    SQLiteTodoRepository.Create x todo db =
      ((some (filledModel x (SQLiteTodoModel.zero.FromEntity todo)).ToEntity.1, none),
        { rows := db.rows ++ [filledModel x (SQLiteTodoModel.zero.FromEntity todo)] }) := by
  have hm := gormCreate_model x (SQLiteTodoModel.zero.FromEntity todo) db
  have hd := gormCreate_ok_db x (SQLiteTodoModel.zero.FromEntity todo) db hok
  rcases hg : gormCreate x (SQLiteTodoModel.zero.FromEntity todo) db with ⟨⟨e, stored⟩, db'⟩
  rw [hg] at hok hm hd
  simp only at hok hm hd
  subst hok hm hd
  simp [SQLiteTodoRepository.Create, hg, SQLiteTodoModel.ToEntity]

theorem sqliteCreate_fail (x : Exec) (todo : Todo) (db : DB) (err : GoError)
    (hko : (gormCreate x (SQLiteTodoModel.zero.FromEntity todo) db).1.1 = some err) :
    SQLiteTodoRepository.Create x todo db =
      ((none, some (fmtErrorfW "failed to create todo: " err)), db) := by
  have hd := gormCreate_fail_db x (SQLiteTodoModel.zero.FromEntity todo) db err hko
  rcases hg : gormCreate x (SQLiteTodoModel.zero.FromEntity todo) db with ⟨⟨e, stored⟩, db'⟩
  rw [hg] at hko hd
  simp only at hko hd
  subst hko hd
  simp [SQLiteTodoRepository.Create, hg]

/-- A successful `Create` is a successful insert. -/
theorem gormCreate_ok_of_sqliteCreate (x : Exec) (todo : Todo) (db db' : DB)
    (created : Option Todo)
    (h : SQLiteTodoRepository.Create x todo db = ((created, none), db')) :
    (gormCreate x (SQLiteTodoModel.zero.FromEntity todo) db).1.1 = none := by
  cases hg : (gormCreate x (SQLiteTodoModel.zero.FromEntity todo) db).1.1 with
  | none => rfl
  | some err =>
    rw [sqliteCreate_fail x todo db err hg] at h
    simp at h

theorem sqliteGetByID_found (x : Exec) (id : String) (db : DB) (row : SQLiteTodoModel)
    (hx : x.fault = none) (hrow : db.rows.find? (fun r => r.ID == id) = some row) :
    SQLiteTodoRepository.GetByID x id db = ((some row.ToEntity.1, none), db) := by
  simp [SQLiteTodoRepository.GetByID, gormFirstByID, hx, hrow, SQLiteTodoModel.ToEntity]

theorem sqliteGetByID_missing (x : Exec) (id : String) (db : DB)
    (hx : x.fault = none) (hrow : db.rows.find? (fun r => r.ID == id) = none) :
    SQLiteTodoRepository.GetByID x id db = ((none, some ErrTodoNotFound), db) := by
  simp [SQLiteTodoRepository.GetByID, gormFirstByID, hx, hrow, GoError.ptrEq,
    gormErrRecordNotFound]

/-! ### Facts about the use cases -/

section UseCaseFacts

variable {σ : Type}

theorem createTodo_of_repo_err (repo : TodoRepository σ) (uuid : String) (now : Time)
    (text : String) (s s' : σ) (r : Option Todo) (e : GoError) (hne : text ≠ "")
    (h : repo.Create (NewTodo uuid now text) s = ((r, some e), s')) :
    (NewTodoUseCase repo).CreateTodo uuid now { Text := text } s
      = ((none, some (fmtErrorfW "failed to create todo: " e)), s') := by
  simp [TodoUseCase.CreateTodo, NewTodoUseCase, CreateTodoRequest.ToEntity, hne, h]

theorem createTodo_of_repo_ok (repo : TodoRepository σ) (uuid : String) (now : Time)
    (text : String) (s s' : σ) (r : Option Todo) (hne : text ≠ "")
    (h : repo.Create (NewTodo uuid now text) s = ((r, none), s')) :
    (NewTodoUseCase repo).CreateTodo uuid now { Text := text } s = ((r, none), s') := by
  simp [TodoUseCase.CreateTodo, NewTodoUseCase, CreateTodoRequest.ToEntity, hne, h]

theorem getTodoByID_of_repo_err (repo : TodoRepository σ) (id : String) (s s' : σ)
    (r : Option Todo) (e : GoError) (hne : id ≠ "")
    (h : repo.GetByID id s = ((r, some e), s')) :
    (NewTodoUseCase repo).GetTodoByID id s =
      if errorsIs e ErrTodoNotFound then
        ((none, some (GoError.errorString ("todo with ID " ++ id ++ " not found"))), s')
      else ((none, some (fmtErrorfW "failed to get todo: " e)), s') := by
  simp [TodoUseCase.GetTodoByID, NewTodoUseCase, hne, h, fmtErrorf]

theorem getTodoByID_of_repo_ok (repo : TodoRepository σ) (id : String) (s s' : σ)
    (r : Option Todo) (hne : id ≠ "")
    (h : repo.GetByID id s = ((r, none), s')) :
    (NewTodoUseCase repo).GetTodoByID id s = ((r, none), s') := by
  simp [TodoUseCase.GetTodoByID, NewTodoUseCase, hne, h]

end UseCaseFacts

/-! ### The claims -/

/-- C1: for every repository and every store, `CreateTodo` with the empty text returns no
Todo and the error "todo text cannot be empty" (which contains "cannot be empty"), leaves
the store as it was, and a repository that logs its calls has logged none. -/
theorem createTodo_empty_text_fails {σ : Type} (repo : TodoRepository σ) (s : σ)
    (uuid : String) (now : Time) (log : List RepoCall) :
    (NewTodoUseCase repo).CreateTodo uuid now { Text := "" } s
        = ((none, some (GoError.errorString "todo text cannot be empty")), s)
      ∧ strContains (GoError.errorString "todo text cannot be empty").Error "cannot be empty"
      ∧ ((NewTodoUseCase repo.recorded).CreateTodo uuid now { Text := "" } (s, log)).2
        = (s, log) := by
  refine ⟨by simp [TodoUseCase.CreateTodo, fmtErrorf], ?_, by simp [TodoUseCase.CreateTodo]⟩
  exact ⟨"todo text ".data, [], by decide⟩

/-- C2: with the SQLite repository, for every non-empty text for which the store accepts
the insert, `CreateTodo` returns a Todo and no error; the Todo's text is the input text
and its id is the id of the Todo that `NewTodo` built for the request. -/
theorem createTodo_sqlite_text_verbatim (x : Exec) (db : DB) (uuid : String) (now : Time)
    (text : String) (hne : text ≠ "")
    (hok : (gormCreate x (SQLiteTodoModel.zero.FromEntity (NewTodo uuid now text)) db).1.1
      = none) :
    ∃ t db', (NewTodoUseCase (NewSQLiteTodoRepository x)).CreateTodo uuid now
          { Text := text } db = ((some t, none), db')
      ∧ t.Text = text ∧ t.ID = (NewTodo uuid now text).ID := by
  refine ⟨_, _, createTodo_of_repo_ok (NewSQLiteTodoRepository x) uuid now text db _ _ hne
    (sqliteCreate_ok x (NewTodo uuid now text) db hok), rfl, rfl⟩

/-- C2 at a whitespace-only text and at a text with blanks on both sides, on an empty table
and on a table that holds another row. -/
theorem createTodo_sqlite_text_verbatim_witness :
    (∃ t db', (NewTodoUseCase (NewSQLiteTodoRepository { fault := none, curTime := 5 })).CreateTodo
          "id-1" { sec := 63000000000, nsec := 7, loc := .Local } { Text := "  " } { rows := [] }
          = ((some t, none), db')
      ∧ t.Text = "  "
      ∧ t.ID = (NewTodo "id-1" { sec := 63000000000, nsec := 7, loc := .Local } "  ").ID)
    ∧ (∃ t db', (NewTodoUseCase (NewSQLiteTodoRepository { fault := none, curTime := 5 })).CreateTodo
          "id-2" { sec := 63000000000, nsec := 7, loc := .Local } { Text := " a\tb \n" }
          { rows := [{ ID := "id-1", Text := "x", CreatedAt := 1, UpdatedAt := 1 }] }
          = ((some t, none), db')
      ∧ t.Text = " a\tb \n"
      ∧ t.ID = (NewTodo "id-2" { sec := 63000000000, nsec := 7, loc := .Local } " a\tb \n").ID) :=
  ⟨createTodo_sqlite_text_verbatim _ _ _ _ _ (by decide) (by decide),
   createTodo_sqlite_text_verbatim _ _ _ _ _ (by decide) (by decide)⟩

/-- C3: when the repository's `Create` fails with cause `e` on a non-empty text,
`CreateTodo` returns no Todo and an error whose message is "failed to create todo: "
followed by `e`'s message and whose wrapped cause, as `errors.Unwrap` returns it, is `e`. -/
theorem createTodo_wraps_repository_error {σ : Type} (repo : TodoRepository σ) (s s' : σ)
    (uuid : String) (now : Time) (text : String) (r : Option Todo) (e : GoError)
    (hne : text ≠ "")
    (hfail : repo.Create (NewTodo uuid now text) s = ((r, some e), s')) :
    ∃ err, (NewTodoUseCase repo).CreateTodo uuid now { Text := text } s
          = ((none, some err), s')
      ∧ err.Error = "failed to create todo: " ++ e.Error
      ∧ errorsUnwrap err = some e :=
  ⟨_, createTodo_of_repo_err repo uuid now text s s' r e hne hfail, rfl, rfl⟩

/-- C3 on the mock of the unit test, whose `Create` fails with "database connection
failed". -/
theorem createTodo_wraps_repository_error_witness :
    ∃ err, (NewTodoUseCase (MockTodoRepository
            (none, some (.errorString "database connection failed")) (none, none)
            (none, none))).CreateTodo
          "id-1" { sec := 63000000000, nsec := 0, loc := .Local } { Text := "Test Todo" } []
          = ((none, some err),
              [.Create (NewTodo "id-1" { sec := 63000000000, nsec := 0, loc := .Local }
                "Test Todo")])
      ∧ err.Error = "failed to create todo: "
          ++ (GoError.errorString "database connection failed").Error
      ∧ errorsUnwrap err = some (.errorString "database connection failed") :=
  createTodo_wraps_repository_error _ _ _ _ _ _ none _ (by decide) rfl

/-- C4: for a non-empty id, when the repository's `GetByID` fails with an error that is
or wraps `ErrTodoNotFound`, `GetTodoByID` returns no Todo and the error with message
"todo with ID <id> not found", which contains "not found" and the requested id. -/
theorem getTodoByID_not_found {σ : Type} (repo : TodoRepository σ) (s s' : σ) (id : String)
    (r : Option Todo) (e : GoError) (hne : id ≠ "")
    (hfail : repo.GetByID id s = ((r, some e), s'))
    (his : errorsIs e ErrTodoNotFound = true) :
    ∃ err, (NewTodoUseCase repo).GetTodoByID id s = ((none, some err), s')
      ∧ err.Error = "todo with ID " ++ id ++ " not found"
      ∧ strContains err.Error "not found"
      ∧ strContains err.Error id := by
  refine ⟨GoError.errorString ("todo with ID " ++ id ++ " not found"), ?_, rfl, ?_, ?_⟩
  · rw [getTodoByID_of_repo_err repo id s s' r e hne hfail, if_pos his]
  · exact ⟨("todo with ID " ++ id ++ " ").data, [], by simp [GoError.Error, String.data_append]⟩
  · exact ⟨"todo with ID ".data, " not found".data, by simp [GoError.Error, String.data_append]⟩

/-- C4 on the mock of the unit test returning the bare signal, and on a mock returning
the signal wrapped in another error. -/
theorem getTodoByID_not_found_witness :
    (∃ err, (NewTodoUseCase (MockTodoRepository (none, none) (none, none)
            (none, some ErrTodoNotFound))).GetTodoByID "non-existent-id" []
          = ((none, some err), [.GetByID "non-existent-id"])
      ∧ err.Error = "todo with ID " ++ "non-existent-id" ++ " not found"
      ∧ strContains err.Error "not found"
      ∧ strContains err.Error "non-existent-id")
    ∧ (∃ err, (NewTodoUseCase (MockTodoRepository (none, none) (none, none)
            (none, some (fmtErrorfW "lookup: " ErrTodoNotFound)))).GetTodoByID "a b" []
          = ((none, some err), [.GetByID "a b"])
      ∧ err.Error = "todo with ID " ++ "a b" ++ " not found"
      ∧ strContains err.Error "not found"
      ∧ strContains err.Error "a b") :=
  ⟨getTodoByID_not_found _ _ _ _ none _ (by decide) rfl (by decide),
   getTodoByID_not_found _ _ _ _ none _ (by decide) rfl (by decide)⟩

/-- C5: for every repository and every store, `GetTodoByID` with the empty id returns no
Todo and the validation error "todo ID cannot be empty", leaves the store as it was, and
a repository that logs its calls has logged none. -/
theorem getTodoByID_empty_id_fails {σ : Type} (repo : TodoRepository σ) (s : σ)
    (log : List RepoCall) :
    (NewTodoUseCase repo).GetTodoByID "" s
        = ((none, some (GoError.errorString "todo ID cannot be empty")), s)
      ∧ (GoError.errorString "todo ID cannot be empty").Error = "todo ID cannot be empty"
      ∧ ((NewTodoUseCase repo.recorded).GetTodoByID "" (s, log)).2 = (s, log) :=
  ⟨by simp [TodoUseCase.GetTodoByID, fmtErrorf], rfl, by simp [TodoUseCase.GetTodoByID]⟩

/-- C6: take the error `v` that `GetTodoByID` returns for the empty id, the error `n` it
returns when the repository fails with a not-found signal, and the error `g` it returns
when the repository fails with any other error. The three have pairwise different
messages (so they are pairwise different values), and `g` is not the not-found error of
any id, whatever the cause of the storage failure is. -/
theorem getTodoByID_failure_kinds_distinct {σ : Type}
    (repoV : TodoRepository σ) (sV : σ)
    (repoN : TodoRepository σ) (sN sN' : σ) (idN : String) (rN : Option Todo) (eN : GoError)
    (repoG : TodoRepository σ) (sG sG' : σ) (idG : String) (rG : Option Todo) (eG : GoError)
    (hidN : idN ≠ "") (hN : repoN.GetByID idN sN = ((rN, some eN), sN'))
    (hisN : errorsIs eN ErrTodoNotFound = true)
    (hidG : idG ≠ "") (hG : repoG.GetByID idG sG = ((rG, some eG), sG'))
    (hisG : errorsIs eG ErrTodoNotFound = false) :
    ∃ v n g, ((NewTodoUseCase repoV).GetTodoByID "" sV).1 = (none, some v)
      ∧ ((NewTodoUseCase repoN).GetTodoByID idN sN).1 = (none, some n)
      ∧ ((NewTodoUseCase repoG).GetTodoByID idG sG).1 = (none, some g)
      ∧ v.Error ≠ n.Error ∧ v.Error ≠ g.Error ∧ n.Error ≠ g.Error
      ∧ v ≠ n ∧ v ≠ g ∧ n ≠ g
      ∧ ∀ id : String, g.Error ≠ "todo with ID " ++ id ++ " not found"
          ∧ g ≠ GoError.errorString ("todo with ID " ++ id ++ " not found") := by
  have hvn : "todo ID cannot be empty" ≠ "todo with ID " ++ idN ++ " not found" := by
    intro h
    have h2 := congrArg String.data h
    simp [String.data_append] at h2
  have hvg : "todo ID cannot be empty" ≠ "failed to get todo: " ++ eG.Error := by
    intro h
    have h2 := congrArg String.data h
    simp [String.data_append] at h2
  have hng : ∀ id : String,
      "failed to get todo: " ++ eG.Error ≠ "todo with ID " ++ id ++ " not found" := by
    intro id h
    have h2 := congrArg String.data h
    simp [String.data_append] at h2
  refine ⟨GoError.errorString "todo ID cannot be empty",
    GoError.errorString ("todo with ID " ++ idN ++ " not found"),
    fmtErrorfW "failed to get todo: " eG, ?_, ?_, ?_, hvn, hvg, fun h => hng idN h.symm,
    ?_, ?_, ?_, fun id => ⟨hng id, ?_⟩⟩
  · simp [TodoUseCase.GetTodoByID, fmtErrorf]
  · rw [getTodoByID_of_repo_err repoN idN sN sN' rN eN hidN hN, if_pos hisN]
  · rw [getTodoByID_of_repo_err repoG idG sG sG' rG eG hidG hG, hisG]
    simp
  · intro h
    exact hvn (congrArg GoError.Error h)
  · intro h
    exact hvg (congrArg GoError.Error h)
  · intro h
    exact hng idN (congrArg GoError.Error h).symm
  · intro h
    exact hng id (congrArg GoError.Error h)

/-- C6 on three mocks of the unit test: one never reached, one returning the not-found
signal, one returning a storage error whose text imitates the not-found message. -/
theorem getTodoByID_failure_kinds_distinct_witness :
    ∃ v n g,
      ((NewTodoUseCase (MockTodoRepository (none, none) (none, none) (none, none))).GetTodoByID
          "" []).1 = (none, some v)
      ∧ ((NewTodoUseCase (MockTodoRepository (none, none) (none, none)
            (none, some ErrTodoNotFound))).GetTodoByID "k" []).1 = (none, some n)
      ∧ ((NewTodoUseCase (MockTodoRepository (none, none) (none, none)
            (none, some (.errorString "todo with ID k not found")))).GetTodoByID "k" []).1
          = (none, some g)
      ∧ v.Error ≠ n.Error ∧ v.Error ≠ g.Error ∧ n.Error ≠ g.Error
      ∧ v ≠ n ∧ v ≠ g ∧ n ≠ g
      ∧ ∀ id : String, g.Error ≠ "todo with ID " ++ id ++ " not found"
          ∧ g ≠ GoError.errorString ("todo with ID " ++ id ++ " not found") :=
  getTodoByID_failure_kinds_distinct _ [] _ [] _ "k" none _ _ [] _ "k" none _
    (by decide) rfl (by decide) (by decide) rfl (by decide)

/-- C7: when the repository's `GetAll` succeeds, `GetAllTodos` returns the repository's
sequence itself and no error; when it fails with cause `e`, `GetAllTodos` returns no
sequence and an error whose message is "failed to get todos: " followed by `e`'s message
and whose wrapped cause is `e`. The store is the one the repository left. -/
theorem getAllTodos_delegates {σ : Type}
    (repoA : TodoRepository σ) (s s' : σ) (todos : Option (List Todo))
    (repoB : TodoRepository σ) (u u' : σ) (r : Option (List Todo)) (e : GoError)
    (hok : repoA.GetAll s = ((todos, none), s'))
    (hfail : repoB.GetAll u = ((r, some e), u')) :
    (NewTodoUseCase repoA).GetAllTodos s = ((todos, none), s')
      ∧ ∃ err, (NewTodoUseCase repoB).GetAllTodos u = ((none, some err), u')
          ∧ err.Error = "failed to get todos: " ++ e.Error
          ∧ errorsUnwrap err = some e := by
  refine ⟨?_, fmtErrorfW "failed to get todos: " e, ?_, rfl, rfl⟩
  · simp [TodoUseCase.GetAllTodos, NewTodoUseCase, hok]
  · simp [TodoUseCase.GetAllTodos, NewTodoUseCase, hfail]

/-- C7 on the two mocks of the unit test: one returns two Todos, the other fails with
"connection timeout". -/
theorem getAllTodos_delegates_witness :
    (NewTodoUseCase (MockTodoRepository (none, none)
          (some [NewTodo "id-1" { sec := 63000000000, nsec := 0, loc := .Local } "Todo 1",
                 NewTodo "id-2" { sec := 63000000000, nsec := 9, loc := .Local } "Todo 2"], none)
          (none, none))).GetAllTodos []
        = ((some [NewTodo "id-1" { sec := 63000000000, nsec := 0, loc := .Local } "Todo 1",
                  NewTodo "id-2" { sec := 63000000000, nsec := 9, loc := .Local } "Todo 2"],
            none), [.GetAll])
      ∧ ∃ err, (NewTodoUseCase (MockTodoRepository (none, none)
              (none, some (.errorString "connection timeout")) (none, none))).GetAllTodos []
            = ((none, some err), [.GetAll])
          ∧ err.Error = "failed to get todos: "
              ++ (GoError.errorString "connection timeout").Error
          ∧ errorsUnwrap err = some (.errorString "connection timeout") :=
  getAllTodos_delegates _ [] _ _ _ [] _ none _ rfl rfl

/-- C8: when the query succeeds, `GetAll` of the SQLite repository returns a sequence that
is a rearrangement of the Todos of all stored rows (each row once), along which the
createdAt second count never increases; for stored second counts that a `time.Time` can
hold no Todo of the sequence is before a later one. Rows stored with `created_at` 1000
and 2000 come back as [2000, 1000], whichever was inserted first. -/
theorem sqliteGetAll_created_at_desc (x : Exec) (db : DB) (hx : x.fault = none)
    (hty : db.int64Columns) :
    (∃ todos, SQLiteTodoRepository.GetAll x db = ((some todos, none), db)
      ∧ todos.Perm (db.rows.map (·.ToEntity.1))
      ∧ todos.length = db.rows.length
      ∧ todos.Pairwise (fun a b => b.CreatedAt.Unix ≤ a.CreatedAt.Unix)
      ∧ (db.createdAtInTimeRange →
          todos.Pairwise (fun a b => a.CreatedAt.Before b.CreatedAt = false)))
    ∧ ∀ a b : SQLiteTodoModel, a.CreatedAt = 1000 → b.CreatedAt = 2000 →
        (SQLiteTodoRepository.GetAll x { rows := [a, b] }).1
            = (some [b.ToEntity.1, a.ToEntity.1], none)
        ∧ (SQLiteTodoRepository.GetAll x { rows := [b, a] }).1
            = (some [b.ToEntity.1, a.ToEntity.1], none) := by
  have hsorted : (db.rows.insertionSort createdAtDesc).Pairwise createdAtDesc :=
    List.sorted_insertionSort createdAtDesc db.rows
  have hmem : ∀ m ∈ db.rows.insertionSort createdAtDesc, m ∈ db.rows :=
    fun m hm => (List.mem_insertionSort createdAtDesc).1 hm
  refine ⟨⟨_, sqliteGetAll_ok x db hx, ?_, ?_, ?_, ?_⟩, ?_⟩
  · exact (List.perm_insertionSort createdAtDesc db.rows).map _
  · simp [List.length_insertionSort]
  · rw [List.pairwise_map]
    refine hsorted.imp_of_mem ?_
    intro a b ha hb hab
    have ha' : (a.ToEntity.1).CreatedAt.Unix = a.CreatedAt :=
      unix_timeFromUnix a.CreatedAt (hty a (hmem a ha)).1
    have hb' : (b.ToEntity.1).CreatedAt.Unix = b.CreatedAt :=
      unix_timeFromUnix b.CreatedAt (hty b (hmem b hb)).1
    rw [ha', hb']
    exact hab
  · intro hrange
    rw [List.pairwise_map]
    refine hsorted.imp_of_mem ?_
    intro a b ha hb hab
    have ha' := wrapInt64_of_isInt64 _ (hrange a (hmem a ha)).2
    have hb' := wrapInt64_of_isInt64 _ (hrange b (hmem b hb)).2
    have hab' : b.CreatedAt ≤ a.CreatedAt := hab
    simp only [SQLiteTodoModel.ToEntity, timeFromUnix, timeUnix0, Time.Before, ha', hb']
    simp
    exact hab'
  · intro a b ha hb
    simp [SQLiteTodoRepository.GetAll, gormFindOrdered, hx, convertModels_eq,
      List.insertionSort, List.orderedInsert, createdAtDesc, ha, hb]

/-- C8 on the table of the integration test, rows stored with `created_at` 1000 and 2000. -/
theorem sqliteGetAll_created_at_desc_witness :
    ∃ todos, SQLiteTodoRepository.GetAll { fault := none, curTime := 0 }
          { rows := [{ ID := "todo-1", Text := "First todo", CreatedAt := 1000, UpdatedAt := 7 },
                     { ID := "todo-2", Text := "Second todo", CreatedAt := 2000, UpdatedAt := 7 }] }
        = ((some todos, none),
          { rows := [{ ID := "todo-1", Text := "First todo", CreatedAt := 1000, UpdatedAt := 7 },
                     { ID := "todo-2", Text := "Second todo", CreatedAt := 2000, UpdatedAt := 7 }] })
      ∧ todos.map (·.ID) = ["todo-2", "todo-1"] := by
  obtain ⟨⟨todos, h, -⟩, -⟩ := sqliteGetAll_created_at_desc { fault := none, curTime := 0 }
    { rows := [{ ID := "todo-1", Text := "First todo", CreatedAt := 1000, UpdatedAt := 7 },
               { ID := "todo-2", Text := "Second todo", CreatedAt := 2000, UpdatedAt := 7 }] }
    rfl (by simp [DB.int64Columns, isInt64])
  refine ⟨todos, h, ?_⟩
  rw [sqliteGetAll_ok _ _ rfl] at h
  simp only [Prod.mk.injEq, Option.some.injEq, and_true] at h
  rw [← h]
  decide

/-- C9: for every Todo, when `Create` of the SQLite repository succeeds, `GetByID` with
the Todo's id on the resulting table (the engine answering the query) succeeds and
returns a Todo with the same id and the same text; it is the Todo that `Create`
returned. -/
theorem sqlite_create_then_getByID (x1 x2 : Exec) (db db' : DB) (todo : Todo)
    (created : Option Todo)
    (hcreate : SQLiteTodoRepository.Create x1 todo db = ((created, none), db'))
    (hx2 : x2.fault = none) :
    ∃ t, SQLiteTodoRepository.GetByID x2 todo.ID db' = ((some t, none), db')
      ∧ t.ID = todo.ID ∧ t.Text = todo.Text ∧ created = some t := by
  have hok := gormCreate_ok_of_sqliteCreate x1 todo db db' created hcreate
  have hfree := ((gormCreate_ok_iff x1 _ db).1 hok).2
  rw [sqliteCreate_ok x1 todo db hok] at hcreate
  simp only [Prod.mk.injEq, and_true] at hcreate
  obtain ⟨hc, hdb⟩ := hcreate
  subst hdb
  refine ⟨(filledModel x1 (SQLiteTodoModel.zero.FromEntity todo)).ToEntity.1, ?_, rfl, rfl,
    hc.symm⟩
  apply sqliteGetByID_found x2 todo.ID _ _ hx2
  have hnone : db.rows.find? (fun r => r.ID == todo.ID) = none := by
    rw [List.find?_eq_none]
    intro r hr
    simpa using hfree r hr
  simp [List.find?_append, hnone, filledModel, SQLiteTodoModel.FromEntity]

/-- C9 on a table that already holds another row. -/
theorem sqlite_create_then_getByID_witness :
    ∃ t, SQLiteTodoRepository.GetByID { fault := none, curTime := 9 }
          (NewTodo "id-2" { sec := 63000000000, nsec := 5, loc := .Local } " two ").ID
          { rows := [{ ID := "id-1", Text := "one", CreatedAt := 3, UpdatedAt := 3 },
                     { ID := "id-2", Text := " two ", CreatedAt := 864403200,
                       UpdatedAt := 864403200 }] }
        = ((some t, none),
          { rows := [{ ID := "id-1", Text := "one", CreatedAt := 3, UpdatedAt := 3 },
                     { ID := "id-2", Text := " two ", CreatedAt := 864403200,
                       UpdatedAt := 864403200 }] })
      ∧ t.ID = (NewTodo "id-2" { sec := 63000000000, nsec := 5, loc := .Local } " two ").ID
      ∧ t.Text = (NewTodo "id-2" { sec := 63000000000, nsec := 5, loc := .Local } " two ").Text
      ∧ some ({ ID := "id-2", Text := " two ", CreatedAt := timeFromUnix 864403200,
                UpdatedAt := timeFromUnix 864403200 } : Todo) = some t :=
  sqlite_create_then_getByID { fault := none, curTime := 4 } { fault := none, curTime := 9 }
    { rows := [{ ID := "id-1", Text := "one", CreatedAt := 3, UpdatedAt := 3 }] } _
    (NewTodo "id-2" { sec := 63000000000, nsec := 5, loc := .Local } " two ") _
    (by decide) rfl

/-- C10: when the engine answers the query, `GetByID` of the SQLite repository returns no
Todo and exactly `ErrTodoNotFound` for an id that no stored row has, and for an id that a
row of a table with unique keys has it returns that row's Todo and no error. The signal
is not an error built by wrapping: it has no cause and differs from every error that
`GetByID` builds for a failure of the engine. -/
theorem sqliteGetByID_found_or_signal (x : Exec) (db : DB) (id : String)
    (hx : x.fault = none) :
    ((∀ m ∈ db.rows, m.ID ≠ id) →
        SQLiteTodoRepository.GetByID x id db = ((none, some ErrTodoNotFound), db))
      ∧ (db.keysUnique → ∀ m ∈ db.rows, m.ID = id →
        SQLiteTodoRepository.GetByID x id db = ((some m.ToEntity.1, none), db))
      ∧ errorsUnwrap ErrTodoNotFound = none
      ∧ ∀ e : GoError, ErrTodoNotFound ≠ fmtErrorfW "failed to get todo: " e := by
  refine ⟨?_, ?_, rfl, ?_⟩
  · intro hnone
    apply sqliteGetByID_missing x id db hx
    rw [List.find?_eq_none]
    intro r hr
    simpa using hnone r hr
  · intro huniq m hm hid
    cases hf : db.rows.find? (fun r => r.ID == id) with
    | none =>
      rw [List.find?_eq_none] at hf
      exact absurd (by simpa using hid) (hf m hm)
    | some row =>
      have hrow : row ∈ db.rows := List.mem_of_find?_eq_some hf
      have hrid : row.ID = id := by simpa using List.find?_some hf
      have hsame : row = m :=
        List.inj_on_of_nodup_map huniq hrow hm (hrid.trans hid.symm)
      rw [← hsame]
      exact sqliteGetByID_found x id db row hx hf
  · intro e h
    simp [ErrTodoNotFound, fmtErrorfW] at h

/-- C10 on the empty table of the integration test and on a table with two rows. -/
theorem sqliteGetByID_found_or_signal_witness :
    SQLiteTodoRepository.GetByID { fault := none, curTime := 0 } "non-existent-id" { rows := [] }
        = ((none, some ErrTodoNotFound), { rows := [] })
      ∧ SQLiteTodoRepository.GetByID { fault := none, curTime := 0 } "test-id-123"
          { rows := [{ ID := "other", Text := "x", CreatedAt := 5, UpdatedAt := 5 },
                     { ID := "test-id-123", Text := "Find me", CreatedAt := 1000,
                       UpdatedAt := 1000 }] }
        = ((some { ID := "test-id-123", Text := "Find me", CreatedAt := timeFromUnix 1000,
                   UpdatedAt := timeFromUnix 1000 }, none),
          { rows := [{ ID := "other", Text := "x", CreatedAt := 5, UpdatedAt := 5 },
                     { ID := "test-id-123", Text := "Find me", CreatedAt := 1000,
                       UpdatedAt := 1000 }] }) :=
  ⟨(sqliteGetByID_found_or_signal { fault := none, curTime := 0 } { rows := [] }
      "non-existent-id" rfl).1 (by simp),
   (sqliteGetByID_found_or_signal { fault := none, curTime := 0 }
      { rows := [{ ID := "other", Text := "x", CreatedAt := 5, UpdatedAt := 5 },
                 { ID := "test-id-123", Text := "Find me", CreatedAt := 1000,
                   UpdatedAt := 1000 }] }
      "test-id-123" rfl).2.1 (by simp [DB.keysUnique])
      { ID := "test-id-123", Text := "Find me", CreatedAt := 1000, UpdatedAt := 1000 }
      (by simp) rfl⟩

/-! ### Facts about the time library: decimal fields -/

theorem fixedDigits_length (w u : Nat) : (fixedDigits w u).length = w := by
  induction w generalizing u with
  | zero => rfl
  | succ w ih => simp [fixedDigits, ih]

theorem fixedDigits_zero (w : Nat) : fixedDigits w 0 = List.replicate w '0' := by
  induction w with
  | zero => rfl
  | succ w ih =>
    simp only [fixedDigits, Nat.zero_div, Nat.zero_mod, ih]
    rw [List.replicate_succ']
    rfl

theorem decimalDigits_length_pos (fuel u : Nat) : 1 ≤ (decimalDigits (fuel + 1) u).length := by
  unfold decimalDigits
  split <;> simp

theorem decimalDigits_length_le (w : Nat) : ∀ fuel u, w ≤ fuel → u < 10 ^ w → 1 ≤ w →
    (decimalDigits fuel u).length ≤ w := by
  induction w with
  | zero => intro fuel u _ _ h; omega
  | succ w ih =>
    intro fuel u hf hu _
    cases fuel with
    | zero => omega
    | succ fuel =>
      unfold decimalDigits
      split
      · simp
      · rename_i h10
        have hw : 1 ≤ w := by
          rcases Nat.eq_zero_or_pos w with h0 | h0
          · subst h0; simp at hu; omega
          · exact h0
        have hdiv : u / 10 < 10 ^ w := by
          rw [Nat.div_lt_iff_lt_mul (by norm_num)]
          rw [pow_succ] at hu
          exact hu
        have := ih fuel (u / 10) (by omega) hdiv hw
        simp
        omega

theorem pad_decimalDigits (w : Nat) : ∀ fuel u, w ≤ fuel → u < 10 ^ w → 1 ≤ w →
    List.replicate (w - (decimalDigits fuel u).length) '0' ++ decimalDigits fuel u
      = fixedDigits w u := by
  induction w with
  | zero => intro fuel u _ _ h; omega
  | succ w ih =>
    intro fuel u hf hu _
    cases fuel with
    | zero => omega
    | succ fuel =>
      unfold decimalDigits
      split
      · rename_i h10
        have h1 : u / 10 = 0 := by omega
        have h2 : u % 10 = u := by omega
        simp [fixedDigits, h1, h2, fixedDigits_zero]
      · rename_i h10
        have hw : 1 ≤ w := by
          rcases Nat.eq_zero_or_pos w with h0 | h0
          · subst h0; simp at hu; omega
          · exact h0
        have hdiv : u / 10 < 10 ^ w := by
          rw [Nat.div_lt_iff_lt_mul (by norm_num)]
          rw [pow_succ] at hu
          exact hu
        have hlen := decimalDigits_length_le w fuel (u / 10) (by omega) hdiv hw
        have := ih fuel (u / 10) (by omega) hdiv hw
        simp only [fixedDigits, List.length_append, List.length_singleton]
        rw [← this]
        have e : w + 1 - ((decimalDigits fuel (u / 10)).length + 1)
            = w - (decimalDigits fuel (u / 10)).length := by omega
        rw [e]
        simp

theorem appendInt_nat (w u : Nat) (hw1 : 1 ≤ w) (hw : w ≤ 20) (hu : u < 10 ^ w) :
    appendInt (u : Int) w = fixedDigits w u := by
  unfold appendInt
  have h : ¬ ((u : Int) < 0) := by omega
  simp only [h, if_false, Int.natAbs_ofNat, List.nil_append]
  exact pad_decimalDigits w 20 u hw hu hw1

theorem take3_fixedDigits9 (u : Nat) : (fixedDigits 9 u).take 3 = fixedDigits 3 (u / 1000000) := by
  have h1 : u / 10 / 10 / 10 / 10 / 10 / 10 / 10 / 10 % 10 = u / 1000000 / 10 / 10 % 10 := by omega
  have h2 : u / 10 / 10 / 10 / 10 / 10 / 10 / 10 % 10 = u / 1000000 / 10 % 10 := by omega
  have h3 : u / 10 / 10 / 10 / 10 / 10 / 10 % 10 = u / 1000000 % 10 := by omega
  simp [fixedDigits, h1, h2, h3]

theorem digitChar_isDigit (d : Nat) (h : d < 10) : (digitChar d).isDigit = true := by
  interval_cases d <;> decide

theorem fixedDigits_all_digits (w u : Nat) : ∀ c ∈ fixedDigits w u, c.isDigit = true := by
  induction w generalizing u with
  | zero => simp [fixedDigits]
  | succ w ih =>
    intro c hc
    simp only [fixedDigits, List.mem_append, List.mem_singleton] at hc
    rcases hc with hc | hc
    · exact ih _ c hc
    · rw [hc]; exact digitChar_isDigit _ (Nat.mod_lt _ (by norm_num))

/-! ### Facts about the time library: the layout of the contract -/

theorem contractLayout_length : "2006-01-02T15:04:05.000Z".length = 24 := by decide

theorem contractLayout_chunk1 : nextStdChunk "2006-01-02T15:04:05.000Z".data
    = ([], some .stdLongYear, "-01-02T15:04:05.000Z".data) := by decide

theorem contractLayout_chunk2 : nextStdChunk "-01-02T15:04:05.000Z".data
    = (['-'], some .stdZeroMonth, "-02T15:04:05.000Z".data) := by decide

theorem contractLayout_chunk3 : nextStdChunk "-02T15:04:05.000Z".data
    = (['-'], some .stdZeroDay, "T15:04:05.000Z".data) := by decide

theorem contractLayout_chunk4 : nextStdChunk "T15:04:05.000Z".data
    = (['T'], some .stdHour, ":04:05.000Z".data) := by decide

theorem contractLayout_chunk5 : nextStdChunk ":04:05.000Z".data
    = ([':'], some .stdZeroMinute, ":05.000Z".data) := by decide

theorem contractLayout_chunk6 : nextStdChunk ":05.000Z".data
    = ([':'], some .stdZeroSecond, ".000Z".data) := by decide

theorem contractLayout_chunk7 : nextStdChunk ".000Z".data
    = ([], some (.stdFracSecond0 3 '.'), "Z".data) := by decide

theorem contractLayout_chunk8 : nextStdChunk "Z".data = (['Z'], none, []) := by decide

/-- The layout of the contract read element by element: year, month, day, hour, minute,
second, three digits of the fraction, and the literal bytes between them. -/
theorem formatTimeForContract_data (t : Time) :
    (formatTimeForContract t).data =
      appendInt (absDate t.UTC.abs).year 4 ++ ('-' :: (appendInt (absDate t.UTC.abs).month 2
        ++ ('-' :: (appendInt (absDate t.UTC.abs).day 2
        ++ ('T' :: (appendInt (absClock t.UTC.abs).hour 2
        ++ (':' :: (appendInt (absClock t.UTC.abs).min 2
        ++ (':' :: (appendInt (absClock t.UTC.abs).sec 2
        ++ (('.' :: appendInt t.nsec 9).take ((appendInt t.nsec 9).length + 1 - 9 + 3)
        ++ ['Z']))))))))))) := by
  simp only [formatTimeForContract, UTCTime.Format, contractLayout_length, appendFormat]
  rw [if_neg (by decide), contractLayout_chunk1]
  simp only []
  rw [if_neg (by decide), contractLayout_chunk2]
  simp only []
  rw [if_neg (by decide), contractLayout_chunk3]
  simp only []
  rw [if_neg (by decide), contractLayout_chunk4]
  simp only []
  rw [if_neg (by decide), contractLayout_chunk5]
  simp only []
  rw [if_neg (by decide), contractLayout_chunk6]
  simp only []
  rw [if_neg (by decide), contractLayout_chunk7]
  simp only []
  rw [if_neg (by decide), contractLayout_chunk8]
  simp [appendStd, appendNano, Time.UTC]

/-! ### Facts about the time library: date and clock -/

theorem absClock_bounds (abs : Nat) :
    (absClock abs).hour < 24 ∧ (absClock abs).min < 60 ∧ (absClock abs).sec < 60 := by
  simp only [absClock]
  omega

theorem daysBefore_steps (m : Nat) (h : m ≤ 11) :
    daysBefore.getD m 0 ≤ 31 * m ∧ 31 * (m + 1) ≤ daysBefore.getD (m + 1) 0 + 7
      ∧ daysBefore.getD (m + 1) 0 ≤ daysBefore.getD m 0 + 31
      ∧ (m = 11 → daysBefore.getD (m + 1) 0 = 365) := by
  interval_cases m <;> simp [daysBefore]

/-- The cycle arithmetic of `absDate` on named intermediate values: day 365 of a year
only occurs in a leap year of the absolute calendar. -/
theorem yearDay_core (D a d1 q2 n2 d2 c d3 q4 n4 d4 y : Nat)
    (ha : a = D / 146097) (hd1 : d1 = D - 146097 * a) (hq2 : q2 = d1 / 36524)
    (hn2 : n2 = q2 - q2 / 4) (hd2 : d2 = d1 - 36524 * n2) (hc : c = d2 / 1461)
    (hd3 : d3 = d2 - 1461 * c) (hq4 : q4 = d3 / 365) (hn4 : n4 = q4 - q4 / 4)
    (hd4 : d4 = d3 - 365 * n4) (hy : y = 400 * a + 100 * n2 + 4 * c + n4) :
    d4 ≤ 365 ∧ (d4 = 365 → (y + 1) % 4 = 0 ∧ ((y + 1) % 100 ≠ 0 ∨ (y + 1) % 400 = 0)) := by
  have hq2le : q2 ≤ 4 := by omega
  have hq4le : q4 ≤ 4 := by omega
  interval_cases q2 <;> interval_cases q4 <;> omega

theorem absYearDay_cycle (abs : Nat) :
    (absYearDay abs).2 ≤ 365 ∧ ((absYearDay abs).2 = 365 →
      ((absYearDay abs).1 + 1) % 4 = 0 ∧
        (((absYearDay abs).1 + 1) % 100 ≠ 0 ∨ ((absYearDay abs).1 + 1) % 400 = 0)) :=
  yearDay_core (abs / 86400) _ _ _ _ _ _ _ _ _ _ (absYearDay abs).1
    rfl rfl rfl rfl rfl rfl rfl rfl rfl rfl rfl

theorem absYearDay_leap (abs : Nat) :
    (absYearDay abs).2 ≤ 365 ∧ ((absYearDay abs).2 = 365 →
      isLeap (((absYearDay abs).1 : Int) + absoluteZeroYear) = true) := by
  have h := absYearDay_cycle abs
  generalize (absYearDay abs).1 = y at h ⊢
  generalize (absYearDay abs).2 = d at h ⊢
  refine ⟨h.1, fun h365 => ?_⟩
  have h3 := h.2 h365
  simp only [isLeap, absoluteZeroYear, Bool.and_eq_true, Bool.or_eq_true, beq_iff_eq,
    bne_iff_ne, ne_eq]
  omega

/-- The month of a date lies in 1..12 and the day in 1..31, when day 365 of the year only
occurs in a leap year. -/
theorem dateOfYearDay_bounds (year : Int) (yday : Nat) (h : yday ≤ 365)
    (hleap : yday = 365 → isLeap year = true) :
    1 ≤ (dateOfYearDay year yday).month ∧ (dateOfYearDay year yday).month ≤ 12
      ∧ 1 ≤ (dateOfYearDay year yday).day ∧ (dateOfYearDay year yday).day ≤ 31 := by
  unfold dateOfYearDay
  split
  · simp
  · rename_i hfeb
    simp only []
    generalize hday : (if (isLeap year && decide (yday > 31 + 29 - 1)) = true then yday - 1
      else yday) = day
    have hd : day ≤ 364 := by
      rw [← hday]
      split
      · omega
      · rename_i hn
        rcases Nat.lt_or_ge yday 365 with h1 | h1
        · omega
        · have h365 : yday = 365 := by omega
          have := hleap h365
          simp [this, h365] at hn
    have hm : day / 31 ≤ 11 := by omega
    have hs := daysBefore_steps (day / 31) hm
    split
    · rename_i hge
      simp only []
      refine ⟨by omega, ?_, by omega, by omega⟩
      rcases Nat.lt_or_ge (day / 31) 11 with h1 | h1
      · omega
      · have h11 : day / 31 = 11 := by omega
        have := hs.2.2.2 h11
        omega
    · rename_i hlt
      simp only []
      omega

theorem absDate_bounds (abs : Nat) :
    1 ≤ (absDate abs).month ∧ (absDate abs).month ≤ 12
      ∧ 1 ≤ (absDate abs).day ∧ (absDate abs).day ≤ 31 :=
  dateOfYearDay_bounds _ _ (absYearDay_leap abs).1 (absYearDay_leap abs).2

theorem dateOfYearDay_year (year : Int) (yday : Nat) :
    (dateOfYearDay year yday).year = year := by
  simp only [dateOfYearDay]
  split_ifs <;> rfl

theorem yearDay_range (D a d1 q2 n2 d2 c d3 q4 n4 y : Nat)
    (ha : a = D / 146097) (hd1 : d1 = D - 146097 * a) (hq2 : q2 = d1 / 36524)
    (hn2 : n2 = q2 - q2 / 4) (hd2 : d2 = d1 - 36524 * n2) (hc : c = d2 / 1461)
    (hd3 : d3 = d2 - 1461 * c) (hq4 : q4 = d3 / 365) (hn4 : n4 = q4 - q4 / 4)
    (hy : y = 400 * a + 100 * n2 + 4 * c + n4)
    (hlo : 106751990353566 ≤ D) (hhi : D < 106751994005991) :
    292277022399 ≤ y ∧ y ≤ 292277032398 := by
  have hq2le : q2 ≤ 4 := by omega
  have hq4le : q4 ≤ 4 := by omega
  have ha0 : 730692555 ≤ a := by omega
  have ha1 : a ≤ 730692580 := by omega
  have hc24 : c ≤ 24 := by
    interval_cases q2 <;> omega
  rcases Nat.eq_or_lt_of_le ha0 with h0 | h0
  · subst hy
    rw [← h0] at hd1 ⊢
    interval_cases q2 <;> interval_cases q4 <;> omega
  · rcases Nat.eq_or_lt_of_le ha1 with h1 | h1
    · subst hy
      rw [h1] at hd1 ⊢
      interval_cases q2 <;> interval_cases q4 <;> omega
    · interval_cases q2 <;> interval_cases q4 <;> omega

/-- Seconds of the absolute calendar from the start of year 0 to the end of year 9999. -/
theorem absDate_year_range (abs : Nat) (hlo : 9223371966548102400 ≤ abs)
    (hhi : abs < 9223372282117622400) :
    0 ≤ (absDate abs).year ∧ (absDate abs).year ≤ 9999 := by
  have h : 292277022399 ≤ (absYearDay abs).1 ∧ (absYearDay abs).1 ≤ 292277032398 :=
    yearDay_range (abs / 86400) _ _ _ _ _ _ _ _ _ (absYearDay abs).1
      rfl rfl rfl rfl rfl rfl rfl rfl rfl rfl (by omega) (by omega)
  rw [absDate, dateOfYearDay_year]
  generalize (absYearDay abs).1 = y at h ⊢
  simp only [absoluteZeroYear]
  omega

/-- The absolute second count of a time whose Unix second lies in years 0 to 9999. -/
theorem utc_abs_of_unix (t : Time) (hlo : -62167219200 ≤ t.Unix) (hhi : t.Unix ≤ 253402300799) :
    9223371966548102400 ≤ t.UTC.abs ∧ t.UTC.abs < 9223372282117622400 := by
  have e : t.UTC.abs = (wrapInt64 (t.Unix + unixToAbsolute) % 2 ^ 64).toNat := rfl
  rw [e]
  generalize t.Unix = u at hlo hhi ⊢
  simp only [wrapInt64, unixToAbsolute, unixToInternal, internalToAbsolute, absoluteToInternal,
    absoluteZeroYear]
  omega


/-- The contract timestamp field by field, for a nanosecond in its range: the year as
`appendInt` pads it to four digits, then two-digit month, day, hour, minute and second and
the three digits of the millisecond. -/
theorem formatTimeForContract_fields (t : Time) (hn : t.nsec < 1000000000) :
    (formatTimeForContract t).data =
      appendInt (absDate t.UTC.abs).year 4 ++ ('-' :: (fixedDigits 2 (absDate t.UTC.abs).month
        ++ ('-' :: (fixedDigits 2 (absDate t.UTC.abs).day
        ++ ('T' :: (fixedDigits 2 (absClock t.UTC.abs).hour
        ++ (':' :: (fixedDigits 2 (absClock t.UTC.abs).min
        ++ (':' :: (fixedDigits 2 (absClock t.UTC.abs).sec
        ++ ('.' :: (fixedDigits 3 (t.nsec / 1000000) ++ ['Z'])))))))))))) := by
  have hd := absDate_bounds t.UTC.abs
  have hc := absClock_bounds t.UTC.abs
  rw [formatTimeForContract_data,
    appendInt_nat 2 (absDate t.UTC.abs).month (by norm_num) (by norm_num) (by omega),
    appendInt_nat 2 (absDate t.UTC.abs).day (by norm_num) (by norm_num) (by omega),
    appendInt_nat 2 (absClock t.UTC.abs).hour (by norm_num) (by norm_num) (by omega),
    appendInt_nat 2 (absClock t.UTC.abs).min (by norm_num) (by norm_num) (by omega),
    appendInt_nat 2 (absClock t.UTC.abs).sec (by norm_num) (by norm_num) (by omega),
    appendInt_nat 9 t.nsec (by norm_num) (by norm_num) (by omega)]
  have h4 : (fixedDigits 9 t.nsec).length + 1 - 9 + 3 = 3 + 1 := by
    rw [fixedDigits_length]
  rw [h4, List.take_succ_cons, take3_fixedDigits9]
  simp


/-- A timestamp whose year lies in 0..9999 matches the pattern of the contract test and
has 24 characters. -/
theorem formatTimeForContract_matches (t : Time) (hn : t.nsec < 1000000000)
    (hy0 : 0 ≤ (absDate t.UTC.abs).year) (hy1 : (absDate t.UTC.abs).year ≤ 9999) :
    matchPat contractTimePattern (formatTimeForContract t).data = true
      ∧ (formatTimeForContract t).length = 24 := by
  obtain ⟨n, hn4, hyear⟩ : ∃ n : Nat, n < 10 ^ 4 ∧
      appendInt (absDate t.UTC.abs).year 4 = fixedDigits 4 n := by
    refine ⟨(absDate t.UTC.abs).year.toNat, by omega, ?_⟩
    rw [← appendInt_nat 4 _ (by norm_num) (by norm_num) (by omega)]
    congr 1
    omega
  have hlen : (formatTimeForContract t).length = (formatTimeForContract t).data.length := rfl
  rw [hlen, formatTimeForContract_fields t hn, hyear]
  constructor
  · simp [contractTimePattern, fixedDigits, matchPat, digitChar_isDigit, Nat.mod_lt]
  · simp [fixedDigits_length]

/-! ### Facts about the time library: the calendar -/

theorem civilYearStart_1970 : civilYearStart 1970 = 0 := by decide

theorem civilYearStart_succ (y : Int) :
    civilYearStart (y + 1) = civilYearStart y + civilDaysInYear y := by
  unfold civilYearStart civilDaysInYear civilLeap
  split <;> omega

theorem isLeap_iff (y : Int) : isLeap y = true ↔ civilLeap y := by
  simp [isLeap, civilLeap]

/-- The cycle arithmetic of `absDate` on named intermediate values: the day count splits
into whole 400-, 100-, 4- and 1-year cycles and the day of the year. -/
theorem yearDay_split (D a d1 q2 n2 d2 c d3 q4 n4 d4 : Nat)
    (ha : a = D / 146097) (hd1 : d1 = D - 146097 * a) (hq2 : q2 = d1 / 36524)
    (hn2 : n2 = q2 - q2 / 4) (hd2 : d2 = d1 - 36524 * n2) (hc : c = d2 / 1461)
    (hd3 : d3 = d2 - 1461 * c) (hq4 : q4 = d3 / 365) (hn4 : n4 = q4 - q4 / 4)
    (hd4 : d4 = d3 - 365 * n4) :
    D = 146097 * a + 36524 * n2 + 1461 * c + 365 * n4 + d4
      ∧ n2 ≤ 3 ∧ c ≤ 24 ∧ n4 ≤ 3 := by
  have hq2le : q2 ≤ 4 := by omega
  have hq4le : q4 ≤ 4 := by omega
  interval_cases q2 <;> interval_cases q4 <;> omega

/-- The start of a year of the calendar, counted in whole cycles from the absolute zero
year. -/
theorem civilYearStart_cycles (a n2 c n4 : Nat) (h2 : n2 ≤ 3) (hc : c ≤ 24) (h4 : n4 ≤ 3) :
    civilYearStart (((400 * a + 100 * n2 + 4 * c + n4 : Nat) : Int) + absoluteZeroYear)
      = ((146097 * a + 36524 * n2 + 1461 * c + 365 * n4 : Nat) : Int)
        + civilYearStart absoluteZeroYear := by
  simp only [civilYearStart, absoluteZeroYear]
  push_cast
  omega

theorem absYearDay_civil (abs : Nat) :
    civilYearStart (((absYearDay abs).1 : Int) + absoluteZeroYear) + (absYearDay abs).2
      = ((abs / 86400 : Nat) : Int) + civilYearStart absoluteZeroYear := by
  have h := yearDay_split (abs / 86400) _ _ _ _ _ _ _ _ _ (absYearDay abs).2
    rfl rfl rfl rfl rfl rfl rfl rfl rfl rfl
  have hy : (absYearDay abs).1 = 400 * (abs / 86400 / 146097) + 100 * _ + 4 * _ + _ := rfl
  rw [hy, civilYearStart_cycles _ _ _ _ h.2.1 h.2.2.1 h.2.2.2]
  have h1 := h.1
  generalize (absYearDay abs).2 = d4 at h1 ⊢
  generalize abs / 86400 / 146097 = a at h1 ⊢
  omega


set_option maxRecDepth 100000 in
/-- The table lookup of `absDate` on every day of a common year: the month found is in
1..12, the day is at least 1, the table entry of the month plus the day of the month is
the day of the year, and the day lies before the next table entry. -/
theorem monthOfDay_table : ∀ day : Nat, day < 365 →
    1 ≤ (if day ≥ daysBefore.getD (day / 31 + 1) 0 then day / 31 + 2 else day / 31 + 1)
    ∧ (if day ≥ daysBefore.getD (day / 31 + 1) 0 then day / 31 + 2 else day / 31 + 1) ≤ 12
    ∧ 1 ≤ (if day ≥ daysBefore.getD (day / 31 + 1) 0
            then day - daysBefore.getD (day / 31 + 1) 0 + 1
            else day - daysBefore.getD (day / 31) 0 + 1)
    ∧ daysBefore.getD
          ((if day ≥ daysBefore.getD (day / 31 + 1) 0 then day / 31 + 2 else day / 31 + 1) - 1) 0
        + (if day ≥ daysBefore.getD (day / 31 + 1) 0
            then day - daysBefore.getD (day / 31 + 1) 0 + 1
            else day - daysBefore.getD (day / 31) 0 + 1) = day + 1
    ∧ day + 1 ≤ daysBefore.getD
          (if day ≥ daysBefore.getD (day / 31 + 1) 0 then day / 31 + 2 else day / 31 + 1) 0 := by
  decide


/-- The table `daysBefore` against the calendar: the days before a month and the length
of a month, with the leap day added after February. -/
theorem daysBefore_civil (y : Int) (m : Nat) (h1 : 1 ≤ m) (h12 : m ≤ 12) :
    civilDaysBeforeMonth y m
        = daysBefore.getD (m - 1) 0 + (if civilLeap y ∧ 3 ≤ m then 1 else 0)
      ∧ civilDaysInMonth y m + daysBefore.getD (m - 1) 0
        = daysBefore.getD m 0 + (if civilLeap y ∧ m = 2 then 1 else 0) := by
  by_cases hl : civilLeap y <;> interval_cases m <;>
    simp [civilDaysBeforeMonth, civilDaysInMonth, daysBefore, List.range_succ, hl]

/-- The two results of `dateOfYearDay` spelled out. -/
theorem dateOfYearDay_unfold (year : Int) (yday day : Nat)
    (hday : day = if (isLeap year && decide (yday > 31 + 29 - 1)) = true then yday - 1 else yday) :
    ((isLeap year && yday == 31 + 29 - 1) = true →
        (dateOfYearDay year yday).month = 2 ∧ (dateOfYearDay year yday).day = 29)
      ∧ ((isLeap year && yday == 31 + 29 - 1) = false →
        (dateOfYearDay year yday).month
            = (if day ≥ daysBefore.getD (day / 31 + 1) 0 then day / 31 + 2 else day / 31 + 1)
          ∧ (dateOfYearDay year yday).day
            = (if day ≥ daysBefore.getD (day / 31 + 1) 0
                then day - daysBefore.getD (day / 31 + 1) 0 + 1
                else day - daysBefore.getD (day / 31) 0 + 1)) := by
  subst hday
  constructor
  · intro h
    simp [dateOfYearDay, h]
  · intro h
    simp only [dateOfYearDay, h, Bool.false_eq_true, if_false]
    split_ifs <;> exact ⟨rfl, rfl⟩

/-- The month and day that `absDate` derives from the day of the year are the month and
day of the calendar: the day exists in the month, and the days of the months before it
plus the day give the day of the year back. -/
theorem dateOfYearDay_civil (year : Int) (yday : Nat) (h : yday ≤ 365)
    (hleap : yday = 365 → isLeap year = true) :
    1 ≤ (dateOfYearDay year yday).month ∧ (dateOfYearDay year yday).month ≤ 12
      ∧ 1 ≤ (dateOfYearDay year yday).day
      ∧ (dateOfYearDay year yday).day
          ≤ civilDaysInMonth year (dateOfYearDay year yday).month
      ∧ civilDaysBeforeMonth year (dateOfYearDay year yday).month
          + (dateOfYearDay year yday).day = yday + 1 := by
  obtain ⟨hA, hB⟩ := dateOfYearDay_unfold year yday _ rfl
  by_cases hfeb : (isLeap year && yday == 31 + 29 - 1) = true
  · obtain ⟨hm, hd⟩ := hA hfeb
    simp only [Bool.and_eq_true, beq_iff_eq] at hfeb
    have hl : civilLeap year := (isLeap_iff year).1 hfeb.1
    rw [hm, hd]
    have := daysBefore_civil year 2 (by norm_num) (by norm_num)
    simp [hl, daysBefore] at this
    omega
  · have hfeb' : (isLeap year && yday == 31 + 29 - 1) = false := by simpa using hfeb
    obtain ⟨hm, hd⟩ := hB hfeb'
    generalize hday : (if (isLeap year && decide (yday > 31 + 29 - 1)) = true then yday - 1
      else yday) = day at hm hd
    have hd364 : day < 365 := by
      rw [← hday]
      split
      · omega
      · rename_i hn
        rcases Nat.lt_or_ge yday 365 with h1 | h1
        · exact h1
        · have h365 : yday = 365 := by omega
          have := hleap h365
          simp [this, h365] at hn
    obtain ⟨t1, t2, t3, t4, t5⟩ := monthOfDay_table day hd364
    rw [← hm] at t1 t2 t5
    rw [← hd] at t3
    rw [← hm, ← hd] at t4
    generalize (dateOfYearDay year yday).month = m at t1 t2 t3 t4 t5 ⊢
    generalize (dateOfYearDay year yday).day = dd at t1 t2 t3 t4 t5 ⊢
    obtain ⟨c1, c2⟩ := daysBefore_civil year m t1 t2
    have hle : civilLeap year ↔ isLeap year = true := (isLeap_iff year).symm
    have tab : (m ≤ 2 → daysBefore.getD m 0 ≤ 59) ∧ (3 ≤ m → 59 ≤ daysBefore.getD (m - 1) 0) := by
      interval_cases m <;> simp [daysBefore]
    cases hl : isLeap year
    · have hnl : ¬ civilLeap year := by rw [hle, hl]; simp
      simp only [hl, Bool.false_and, Bool.false_eq_true, if_false] at hday
      simp only [hnl, false_and, if_false, Nat.add_zero] at c1 c2
      exact ⟨t1, t2, t3, by omega, by omega⟩
    · have hcl : civilLeap year := by rw [hle, hl]
      simp only [hl, Bool.true_and, beq_eq_false_iff_ne, ne_eq] at hfeb'
      simp only [hl, Bool.true_and, decide_eq_true_eq] at hday
      simp only [hcl, true_and] at c1 c2
      refine ⟨t1, t2, t3, ?_, ?_⟩
      · split at c2 <;> omega
      · split at hday
        · have hm3 : 3 ≤ m := by
            by_contra hlt
            have := tab.1 (by omega)
            omega
          rw [if_pos hm3] at c1
          omega
        · have hm2 : ¬ 3 ≤ m := by
            intro hge
            have := tab.2 hge
            omega
          rw [if_neg hm2] at c1
          omega


theorem absClock_seconds (abs : Nat) :
    (absClock abs).hour * 3600 + (absClock abs).min * 60 + (absClock abs).sec = abs % 86400 := by
  simp only [absClock]
  omega

/-- The date and clock that `absDate` and `absClock` derive from an absolute second count
are those of the calendar: they exist, and their second count since 1970 is the absolute
count moved by the start of the absolute zero year. -/
theorem absDate_civil (abs : Nat) :
    civilValid (absDate abs).year (absDate abs).month (absDate abs).day
        (absClock abs).hour (absClock abs).min (absClock abs).sec
      ∧ civilUnixSecond (absDate abs).year (absDate abs).month (absDate abs).day
          (absClock abs).hour (absClock abs).min (absClock abs).sec
        = (abs : Int) + civilYearStart absoluteZeroYear * 86400 := by
  have hy := absYearDay_civil abs
  have hl := absYearDay_leap abs
  have hd := dateOfYearDay_civil (((absYearDay abs).1 : Int) + absoluteZeroYear)
    (absYearDay abs).2 hl.1 hl.2
  have hc := absClock_bounds abs
  have hs := absClock_seconds abs
  have hyear : (absDate abs).year = ((absYearDay abs).1 : Int) + absoluteZeroYear :=
    dateOfYearDay_year _ _
  have hmonth : (absDate abs).month = (dateOfYearDay
      (((absYearDay abs).1 : Int) + absoluteZeroYear) (absYearDay abs).2).month := rfl
  have hday : (absDate abs).day = (dateOfYearDay
      (((absYearDay abs).1 : Int) + absoluteZeroYear) (absYearDay abs).2).day := rfl
  rw [← hmonth, ← hday, ← hyear] at hd
  rw [← hyear] at hy
  refine ⟨⟨hd.1, hd.2.1, hd.2.2.1, hd.2.2.2.1, hc.1, hc.2.1, hc.2.2⟩, ?_⟩
  simp only [civilUnixSecond]
  have h5 := hd.2.2.2.2
  generalize civilYearStart (absDate abs).year = ys at hy ⊢
  generalize civilDaysBeforeMonth (absDate abs).year (absDate abs).month = bm at h5 ⊢
  generalize (absDate abs).day = dd at h5 ⊢
  generalize (absYearDay abs).2 = yd at hy h5
  generalize civilYearStart absoluteZeroYear = z at hy ⊢
  generalize (absClock abs).hour = hh at hs ⊢
  generalize (absClock abs).min = mm at hs ⊢
  generalize (absClock abs).sec = ss at hs ⊢
  omega

theorem civilYearStart_absoluteZero : unixToAbsolute + civilYearStart absoluteZeroYear * 86400 = 0 := by
  decide

/-- The absolute second count of a time whose Unix second lies in the years 0 to 9999 is
the Unix second moved to the absolute zero, without wrap-around. -/
theorem utc_abs_eq_of_unix (t : Time) (hlo : -62167219200 ≤ t.Unix)
    (hhi : t.Unix ≤ 253402300799) : (t.UTC.abs : Int) = t.Unix + unixToAbsolute := by
  have e : t.UTC.abs = (wrapInt64 (t.Unix + unixToAbsolute) % 2 ^ 64).toNat := rfl
  rw [e]
  generalize t.Unix = u at hlo hhi ⊢
  simp only [wrapInt64, unixToAbsolute, unixToInternal, internalToAbsolute, absoluteToInternal,
    absoluteZeroYear]
  omega

theorem civilYearStart_mono (y y' : Int) (h : y < y') :
    civilYearStart y + civilDaysInYear y ≤ civilYearStart y' := by
  unfold civilYearStart civilDaysInYear civilLeap
  split <;> omega

/-- The days before each month and the month lengths of a year, as one table. -/
theorem civilMonth_table (y : Int) (m : Nat) (h1 : 1 ≤ m) (h12 : m ≤ 12) :
    civilDaysBeforeMonth y m + civilDaysInMonth y m
        = (if m = 12 then civilDaysInYear y else civilDaysBeforeMonth y (m + 1))
      ∧ civilDaysBeforeMonth y m + civilDaysInMonth y m ≤ civilDaysInYear y
      ∧ 1 ≤ civilDaysInMonth y m := by
  by_cases hl : civilLeap y <;> interval_cases m <;>
    simp [civilDaysBeforeMonth, civilDaysInMonth, civilDaysInYear, List.range_succ, hl]

theorem civilDaysBeforeMonth_mono (y : Int) (m m' : Nat) (h1 : 1 ≤ m) (hlt : m < m')
    (h12 : m' ≤ 12) :
    civilDaysBeforeMonth y m + civilDaysInMonth y m ≤ civilDaysBeforeMonth y m' := by
  induction m' with
  | zero => omega
  | succ k ih =>
    rcases Nat.lt_or_ge m k with hk | hk
    · have := ih hk (by omega)
      have t := civilMonth_table y k (by omega) (by omega)
      rw [if_neg (by omega)] at t
      omega
    · have hmk : m = k := by omega
      subst hmk
      have t := civilMonth_table y m h1 (by omega)
      rw [if_neg (by omega)] at t
      omega

/-- A calendar date and time of day is determined by its second count. -/
theorem civilUnixSecond_inj (y y' : Int) (m d h mi s m' d' h' mi' s' : Nat)
    (hv : civilValid y m d h mi s) (hv' : civilValid y' m' d' h' mi' s')
    (he : civilUnixSecond y m d h mi s = civilUnixSecond y' m' d' h' mi' s') :
    y = y' ∧ m = m' ∧ d = d' ∧ h = h' ∧ mi = mi' ∧ s = s' := by
  obtain ⟨a1, a2, a3, a4, a5, a6, a7⟩ := hv
  obtain ⟨b1, b2, b3, b4, b5, b6, b7⟩ := hv'
  have ta := civilMonth_table y m a1 a2
  have tb := civilMonth_table y' m' b1 b2
  simp only [civilUnixSecond] at he
  have hy : y = y' := by
    rcases lt_trichotomy y y' with hlt | heq | hgt
    · have := civilYearStart_mono y y' hlt
      omega
    · exact heq
    · have := civilYearStart_mono y' y hgt
      omega
  subst hy
  have hm : m = m' := by
    rcases Nat.lt_trichotomy m m' with hlt | heq | hgt
    · have := civilDaysBeforeMonth_mono y m m' a1 hlt b2
      omega
    · exact heq
    · have := civilDaysBeforeMonth_mono y m' m b1 hgt a2
      omega
  subst hm
  refine ⟨rfl, rfl, ?_, ?_, ?_, ?_⟩ <;> omega

theorem digitChar_value (d : Nat) (h : d < 10) : (digitChar d).toNat - 48 = d := by
  interval_cases d <;> decide

/-- A field of `w` digits denotes the number it was made from. -/
theorem decimalValue_fixedDigits (w : Nat) : ∀ n : Nat, n < 10 ^ w →
    decimalValue (fixedDigits w n) = n := by
  induction w with
  | zero =>
    intro n h
    simp at h
    simp [h, fixedDigits, decimalValue]
  | succ w ih =>
    intro n h
    have hdiv : n / 10 < 10 ^ w := by
      rw [Nat.div_lt_iff_lt_mul (by norm_num)]
      rw [pow_succ] at h
      exact h
    have := ih (n / 10) hdiv
    simp only [decimalValue] at this
    simp only [fixedDigits, decimalValue, List.foldl_append, List.foldl_cons, List.foldl_nil,
      this, digitChar_value (n % 10) (Nat.mod_lt _ (by norm_num))]
    omega

/-! ### The claims on the contract response -/

/-- C11: for every Todo the contract response has the Todo's id and text and the formatted
createdAt; serialised, it is an object with exactly the three members id, text and
createdAt, in this order, and no updatedAt; the response is the same for two Todos that
agree on id, text and createdAt, whatever their updatedAt. -/
theorem toContractTodoResponse_three_fields (todo : Todo) :
    (ToContractTodoResponse todo).ID = todo.ID
      ∧ (ToContractTodoResponse todo).Text = todo.Text
      ∧ (ToContractTodoResponse todo).CreatedAt = formatTimeForContract todo.CreatedAt
      ∧ (ToContractTodoResponse todo).marshal
          = .object [("id", .string todo.ID), ("text", .string todo.Text),
              ("createdAt", .string (formatTimeForContract todo.CreatedAt))]
      ∧ (ToContractTodoResponse todo).marshal.keys = ["id", "text", "createdAt"]
      ∧ (ToContractTodoResponse todo).marshal.keys.length = 3
      ∧ "updatedAt" ∉ (ToContractTodoResponse todo).marshal.keys
      ∧ (∀ u : Time, ToContractTodoResponse { todo with UpdatedAt := u }
          = ToContractTodoResponse todo)
      ∧ ∀ other : Todo, other.ID = todo.ID → other.Text = todo.Text →
          other.CreatedAt = todo.CreatedAt →
          ToContractTodoResponse other = ToContractTodoResponse todo := by
  refine ⟨rfl, rfl, rfl, rfl, rfl, rfl, by simp [ContractTodoResponse.marshal, JSON.keys],
    fun _ => rfl, ?_⟩
  intro other h1 h2 h3
  simp [ToContractTodoResponse, h1, h2, h3]

set_option maxRecDepth 100000 in
/-- C12, as stated, fails: the first second of year 10000 and the last second of year -1
are instants of a well-typed time, and their strings "10000-01-01T00:00:00.000Z" (25
characters) and "-0001-12-31T23:59:59.000Z" do not have the form of four digits, dash, two
digits, and so on. -/
theorem formatTimeForContract_year_out_of_range :
    Time.wellTyped { sec := 315537897600, nsec := 0, loc := .UTC }
      ∧ civilUnixSecond 10000 1 1 0 0 0
          = Time.Unix { sec := 315537897600, nsec := 0, loc := .UTC }
      ∧ formatTimeForContract { sec := 315537897600, nsec := 0, loc := .UTC }
          = "10000-01-01T00:00:00.000Z"
      ∧ (formatTimeForContract { sec := 315537897600, nsec := 0, loc := .UTC }).length = 25
      ∧ matchPat contractTimePattern
          (formatTimeForContract { sec := 315537897600, nsec := 0, loc := .UTC }).data = false
      ∧ Time.wellTyped { sec := -31622401, nsec := 0, loc := .UTC }
      ∧ civilUnixSecond (-1) 12 31 23 59 59
          = Time.Unix { sec := -31622401, nsec := 0, loc := .UTC }
      ∧ formatTimeForContract { sec := -31622401, nsec := 0, loc := .UTC }
          = "-0001-12-31T23:59:59.000Z"
      ∧ matchPat contractTimePattern
          (formatTimeForContract { sec := -31622401, nsec := 0, loc := .UTC }).data = false := by
  decide

/-- C12, amended: for every well-typed time whose instant lies in the years 0000 to 9999
UTC (Unix second from -62167219200 to 253402300799), in whatever zone it is held, the
string is YYYY-MM-DDTHH:MM:SS.mmmZ, 24 characters, where the six fields are the date and
time of day of the instant in the proleptic Gregorian calendar in UTC: the only existing
date and time whose second count since 1970-01-01 00:00:00 UTC is the instant's Unix
second. The field mmm is the nanosecond divided by a million, the remainder dropped. Two
time values with the same instant give the same string, and 2024-01-01 10:00:00 UTC gives
"2024-01-01T10:00:00.000Z". -/
theorem formatTimeForContract_civil_utc (t : Time) (hty : t.wellTyped)
    (hlo : -62167219200 ≤ t.Unix) (hhi : t.Unix ≤ 253402300799) :
    (∃ y mo d h mi s : Nat, y ≤ 9999
        ∧ civilValid y mo d h mi s
        ∧ civilUnixSecond y mo d h mi s = t.Unix
        ∧ (∀ (y' : Int) (mo' d' h' mi' s' : Nat), civilValid y' mo' d' h' mi' s' →
            civilUnixSecond y' mo' d' h' mi' s' = t.Unix →
            y' = y ∧ mo' = mo ∧ d' = d ∧ h' = h ∧ mi' = mi ∧ s' = s)
        ∧ (formatTimeForContract t).data =
            fixedDigits 4 y ++ ('-' :: (fixedDigits 2 mo ++ ('-' :: (fixedDigits 2 d
              ++ ('T' :: (fixedDigits 2 h ++ (':' :: (fixedDigits 2 mi
              ++ (':' :: (fixedDigits 2 s
              ++ ('.' :: (fixedDigits 3 (t.nsec / 1000000) ++ ['Z'])))))))))))))
      ∧ (formatTimeForContract t).length = 24
      ∧ matchPat contractTimePattern (formatTimeForContract t).data = true
      ∧ (∀ u : Time, u.sec = t.sec → u.nsec = t.nsec →
          formatTimeForContract u = formatTimeForContract t)
      ∧ civilUnixSecond 2024 1 1 10 0 0
          = Time.Unix { sec := 63839700000, nsec := 0, loc := .UTC }
      ∧ Time.Unix { sec := 63839700000, nsec := 0, loc := .UTC } = 1704103200
      ∧ formatTimeForContract { sec := 63839700000, nsec := 0, loc := .UTC }
          = "2024-01-01T10:00:00.000Z" := by
  have habs := utc_abs_of_unix t hlo hhi
  have hyr := absDate_year_range _ habs.1 habs.2
  have hciv := absDate_civil t.UTC.abs
  have hu := utc_abs_eq_of_unix t hlo hhi
  have hz := civilYearStart_absoluteZero
  have hm := formatTimeForContract_matches t hty.2 hyr.1 hyr.2
  obtain ⟨y, hy⟩ : ∃ y : Nat, (absDate t.UTC.abs).year = (y : Int) :=
    ⟨(absDate t.UTC.abs).year.toNat, by omega⟩
  have hsec : civilUnixSecond (y : Int) (absDate t.UTC.abs).month (absDate t.UTC.abs).day
      (absClock t.UTC.abs).hour (absClock t.UTC.abs).min (absClock t.UTC.abs).sec = t.Unix := by
    rw [← hy, hciv.2, hu]
    omega
  have hvalid : civilValid (y : Int) (absDate t.UTC.abs).month (absDate t.UTC.abs).day
      (absClock t.UTC.abs).hour (absClock t.UTC.abs).min (absClock t.UTC.abs).sec := by
    rw [← hy]
    exact hciv.1
  refine ⟨⟨y, _, _, _, _, _, by omega, hvalid, hsec, ?_, ?_⟩, hm.2, hm.1, ?_, by decide,
    by decide, by decide⟩
  · intro y' mo' d' h' mi' s' hv' hs'
    exact civilUnixSecond_inj _ _ _ _ _ _ _ _ _ _ _ _ hv' hvalid (hs'.trans hsec.symm)
  · rw [formatTimeForContract_fields t hty.2, hy,
      appendInt_nat 4 y (by norm_num) (by norm_num) (by omega)]
  · intro u hs hns
    simp [formatTimeForContract, Time.UTC, hs, hns]

set_option maxRecDepth 100000 in
/-- C12, amended, at 2024-01-01 10:00:00.123456789 UTC held in the local zone and in a
fixed zone. -/
theorem formatTimeForContract_civil_utc_witness :
    formatTimeForContract { sec := 63839700000, nsec := 123456789, loc := .Local }
        = "2024-01-01T10:00:00.123Z"
      ∧ (formatTimeForContract
          { sec := 63839700000, nsec := 123456789, loc := .Local }).length = 24
      ∧ formatTimeForContract { sec := 63839700000, nsec := 123456789, loc := .Fixed "CET" 3600 }
        = formatTimeForContract { sec := 63839700000, nsec := 123456789, loc := .Local } :=
  ⟨by decide,
   (formatTimeForContract_civil_utc
      { sec := 63839700000, nsec := 123456789, loc := .Local }
      (by decide) (by decide) (by decide)).2.1,
   (formatTimeForContract_civil_utc
      { sec := 63839700000, nsec := 123456789, loc := .Local }
      (by decide) (by decide) (by decide)).2.2.2.1
      { sec := 63839700000, nsec := 123456789, loc := .Fixed "CET" 3600 } rfl rfl⟩

set_option maxRecDepth 100000 in
/-- C13, as stated, fails: a row with `created_at` 253402300800 (an `int64`, the first
second of year 10000) gives the createdAt string "10000-01-01T00:00:00.000Z", which has 25
characters and does not match the pattern. -/
theorem contract_createdAt_year_10000 :
    isInt64 253402300800
      ∧ (ToContractTodoResponse (SQLiteTodoModel.ToEntity
          { ID := "uuid-123", Text := "buy some milk", CreatedAt := 253402300800,
            UpdatedAt := 253402300800 }).1).CreatedAt = "10000-01-01T00:00:00.000Z"
      ∧ (ToContractTodoResponse (SQLiteTodoModel.ToEntity
          { ID := "uuid-123", Text := "buy some milk", CreatedAt := 253402300800,
            UpdatedAt := 253402300800 }).1).CreatedAt.length = 25
      ∧ matchPat contractTimePattern (ToContractTodoResponse (SQLiteTodoModel.ToEntity
          { ID := "uuid-123", Text := "buy some milk", CreatedAt := 253402300800,
            UpdatedAt := 253402300800 }).1).CreatedAt.data = false := by
  decide

/-- C13, amended: for every Todo whose createdAt is a well-typed time with a Unix second
from -62167219200 to 253402300799 (the years 0000 to 9999 in UTC), the createdAt string of
the contract response matches the pattern of four digits, dash, two digits, dash, two
digits, T, two digits, colon, two digits, colon, two digits, dot, three digits, Z, and has
exactly 24 characters. -/
theorem contract_createdAt_matches_pattern (todo : Todo)
    (hty : todo.CreatedAt.wellTyped)
    (hlo : -62167219200 ≤ todo.CreatedAt.Unix) (hhi : todo.CreatedAt.Unix ≤ 253402300799) :
    matchPat contractTimePattern (ToContractTodoResponse todo).CreatedAt.data = true
      ∧ (ToContractTodoResponse todo).CreatedAt.length = 24 := by
  have habs := utc_abs_of_unix todo.CreatedAt hlo hhi
  have hyear := absDate_year_range _ habs.1 habs.2
  exact formatTimeForContract_matches todo.CreatedAt hty.2 hyear.1 hyear.2

/-- C13, amended, at the last second of year 9999 and at the first second of year 0. -/
theorem contract_createdAt_matches_pattern_witness :
    (matchPat contractTimePattern (ToContractTodoResponse
          (NewTodo "id-1" { sec := 315537897599, nsec := 999999999, loc := .Local } "a")
        ).CreatedAt.data = true
      ∧ (ToContractTodoResponse
          (NewTodo "id-1" { sec := 315537897599, nsec := 999999999, loc := .Local } "a")
        ).CreatedAt.length = 24)
    ∧ (matchPat contractTimePattern (ToContractTodoResponse
          (NewTodo "id-2" { sec := -31622400, nsec := 0, loc := .UTC } "b")
        ).CreatedAt.data = true
      ∧ (ToContractTodoResponse
          (NewTodo "id-2" { sec := -31622400, nsec := 0, loc := .UTC } "b")
        ).CreatedAt.length = 24) :=
  ⟨contract_createdAt_matches_pattern _ (by decide) (by decide) (by decide),
   contract_createdAt_matches_pattern _ (by decide) (by decide) (by decide)⟩


/-- C14: for the nil sequence and for the empty non-nil sequence `ToContractTodoList`
returns the empty non-nil slice, which serialises as the empty array and not as null; the
sequence that `GetAll` of the SQLite repository returns for an empty table is the empty
non-nil slice, and its contract form is the empty array too. -/
theorem toContractTodoList_empty (curTime : Int) :
    ToContractTodoList none = some []
      ∧ ToContractTodoList (some []) = some []
      ∧ marshalContractTodoList (ToContractTodoList none) = .array []
      ∧ marshalContractTodoList (ToContractTodoList (some [])) = .array []
      ∧ JSON.array [] ≠ JSON.null
      ∧ (SQLiteTodoRepository.GetAll { fault := none, curTime := curTime } { rows := [] }).1
          = (some [], none)
      ∧ marshalContractTodoList (ToContractTodoList
          (SQLiteTodoRepository.GetAll { fault := none, curTime := curTime }
            { rows := [] }).1.1) = .array [] := by
  have hget : (SQLiteTodoRepository.GetAll { fault := none, curTime := curTime }
      { rows := [] }).1 = (some [], none) := by
    rw [sqliteGetAll_ok _ _ rfl]
    rfl
  refine ⟨rfl, rfl, rfl, rfl, (fun h => by cases h), hget, ?_⟩
  rw [hget]
  rfl

/-- C15: for every sequence of Todos `ToContractTodoList` returns a sequence of the same
length whose element at every index is the contract response of the Todo at that index:
it is the input mapped element by element, in the input's order. -/
theorem toContractTodoList_preserves_order (todos : List Todo) :
    ∃ rs, ToContractTodoList (some todos) = some rs
      ∧ rs = todos.map ToContractTodoResponse
      ∧ rs.length = todos.length
      ∧ ∀ i : Nat, rs[i]? = (todos[i]?).map ToContractTodoResponse := by
  refine ⟨todos.map ToContractTodoResponse, ?_, rfl, by simp, fun i => by simp⟩
  cases todos with
  | nil => rfl
  | cons a l => simp [ToContractTodoList]

/-! ### Facts about the store round trip and the UUID text -/

theorem timeFromUnix_unix (t : Time) (h : isInt64 t.sec) :
    timeFromUnix t.Unix = { sec := t.sec, nsec := 0, loc := .Local } := by
  have e : wrapInt64 (wrapInt64 (t.sec + internalToUnix) + unixToInternal) = t.sec := by
    unfold isInt64 at h
    simp only [wrapInt64, internalToUnix, unixToInternal]
    omega
  simp [timeFromUnix, timeUnix0, Time.Unix, e]

theorem wrapInt64_isInt64 (x : Int) : isInt64 (wrapInt64 x) := by
  unfold isInt64 wrapInt64
  omega

theorem hexDigit_inj (a b : Nat) (ha : a < 16) (hb : b < 16) (h : hexDigit a = hexDigit b) :
    a = b := by
  interval_cases a <;> interval_cases b <;> first | rfl | (exfalso; revert h; decide)

theorem hexEncode_length (bs : List Nat) : (hexEncode bs).length = 2 * bs.length := by
  induction bs with
  | nil => rfl
  | cons b bs ih => simp [hexEncode, ih]; omega

theorem hexEncode_inj : ∀ xs ys : List Nat, (∀ b ∈ xs, b < 256) → (∀ b ∈ ys, b < 256) →
    hexEncode xs = hexEncode ys → xs = ys := by
  intro xs
  induction xs with
  | nil =>
    intro ys _ _ h
    cases ys with
    | nil => rfl
    | cons y ys => simp [hexEncode] at h
  | cons x xs ih =>
    intro ys hx hy h
    cases ys with
    | nil => simp [hexEncode] at h
    | cons y ys =>
      simp only [hexEncode, List.cons.injEq] at h
      have hx256 : x < 256 := hx x (by simp)
      have hy256 : y < 256 := hy y (by simp)
      have h1 := hexDigit_inj (x / 16) (y / 16) (by omega) (by omega) h.1
      have h2 := hexDigit_inj (x % 16) (y % 16) (by omega) (by omega) h.2.1
      have hxy : x = y := by omega
      have := ih ys (fun b hb => hx b (by simp [hb])) (fun b hb => hy b (by simp [hb])) h.2.2
      rw [hxy, this]

theorem uuidString_length (u : List Nat) (h : u.length = 16) : (uuidString u).length = 36 := by
  show (uuidString u).data.length = 36
  simp [uuidString, hexEncode_length, h]

theorem uuidString_inj (u v : List Nat) (hu : isUUID u) (hv : isUUID v)
    (h : uuidString u = uuidString v) : u = v := by
  have hd : (uuidString u).data = (uuidString v).data := by rw [h]
  simp only [uuidString, List.append_assoc, List.cons_append] at hd
  have mem_take : ∀ (w : List Nat) (n : Nat), (∀ b ∈ w, b < 256) → ∀ b ∈ w.take n, b < 256 :=
    fun w n hw b hb => hw b (List.mem_of_mem_take hb)
  have mem_drop : ∀ (w : List Nat) (n : Nat), (∀ b ∈ w, b < 256) → ∀ b ∈ w.drop n, b < 256 :=
    fun w n hw b hb => hw b (List.mem_of_mem_drop hb)
  obtain ⟨h1, hd⟩ := List.append_inj hd (by simp [hexEncode_length, hu.1, hv.1])
  simp only [List.cons.injEq, true_and] at hd
  obtain ⟨h2, hd⟩ := List.append_inj hd (by simp [hexEncode_length, hu.1, hv.1])
  simp only [List.cons.injEq, true_and] at hd
  obtain ⟨h3, hd⟩ := List.append_inj hd (by simp [hexEncode_length, hu.1, hv.1])
  simp only [List.cons.injEq, true_and] at hd
  obtain ⟨h4, h5⟩ := List.append_inj hd (by simp [hexEncode_length, hu.1, hv.1])
  simp only [List.cons.injEq, true_and] at h5
  have e1 := hexEncode_inj _ _ (mem_take u 4 hu.2) (mem_take v 4 hv.2) h1
  have e2 := hexEncode_inj _ _ (mem_take _ 2 (mem_drop u 4 hu.2))
    (mem_take _ 2 (mem_drop v 4 hv.2)) h2
  have e3 := hexEncode_inj _ _ (mem_take _ 2 (mem_drop u 6 hu.2))
    (mem_take _ 2 (mem_drop v 6 hv.2)) h3
  have e4 := hexEncode_inj _ _ (mem_take _ 2 (mem_drop u 8 hu.2))
    (mem_take _ 2 (mem_drop v 8 hv.2)) h4
  have e5 := hexEncode_inj _ _ (mem_drop u 10 hu.2) (mem_drop v 10 hv.2) h5
  have split : ∀ w : List Nat, w = w.take 4 ++ ((w.drop 4).take 2 ++ ((w.drop 6).take 2
      ++ ((w.drop 8).take 2 ++ w.drop 10))) := by
    intro w
    have a1 : (w.drop 8).take 2 ++ w.drop 10 = w.drop 8 := by
      have := List.take_append_drop 2 (w.drop 8)
      simpa [List.drop_drop] using this
    have a2 : (w.drop 6).take 2 ++ w.drop 8 = w.drop 6 := by
      have := List.take_append_drop 2 (w.drop 6)
      simpa [List.drop_drop] using this
    have a3 : (w.drop 4).take 2 ++ w.drop 6 = w.drop 4 := by
      have := List.take_append_drop 2 (w.drop 4)
      simpa [List.drop_drop] using this
    rw [a1, a2, a3, List.take_append_drop]
  rw [split u, split v, e1, e2, e3, e4, e5]

theorem uuidNew_isUUID (rnd : List Nat) (h : isUUID rnd) : isUUID (uuidNew rnd) := by
  refine ⟨by simp [uuidNew, h.1], ?_⟩
  intro b hb
  simp only [uuidNew] at hb
  rcases List.mem_or_eq_of_mem_set hb with hb | hb
  · rcases List.mem_or_eq_of_mem_set hb with hb | hb
    · exact h.2 b hb
    · omega
  · omega


/-- On an empty table and with an engine that does not fail, `CreateTodo` with a non-empty
text inserts the row and returns its Todo. -/
theorem createTodo_sqlite_fresh (x : Exec) (hx : x.fault = none) (uuid : String) (now : Time)
    (text : String) (hne : text ≠ "") :
    (NewTodoUseCase (NewSQLiteTodoRepository x)).CreateTodo uuid now { Text := text }
        { rows := [] }
      = ((some (filledModel x (SQLiteTodoModel.zero.FromEntity (NewTodo uuid now text))).ToEntity.1,
          none),
        { rows := [filledModel x (SQLiteTodoModel.zero.FromEntity (NewTodo uuid now text))] }) := by
  have hok : (gormCreate x (SQLiteTodoModel.zero.FromEntity (NewTodo uuid now text))
      { rows := [] }).1.1 = none := by
    rw [gormCreate_ok_iff]
    simp [hx]
  rw [createTodo_of_repo_ok (NewSQLiteTodoRepository x) uuid now text _ _ _ hne
    (sqliteCreate_ok x _ _ hok)]
  rfl

/-! ### The claims on validation, timestamps and ids -/

/-- C16 at a text of 501 characters: `CreateTodo` does not fail; it calls the repository
(the mock logs the call, the SQLite table gets the row) and returns a Todo with that text
of 501 characters and no error. -/
theorem createTodo_accepts_501_characters :
    text501.length = 501
      ∧ (∃ t db', (NewTodoUseCase (NewSQLiteTodoRepository
              { fault := none, curTime := 5 })).CreateTodo
            "id-1" { sec := 63839700000, nsec := 0, loc := .Local } { Text := text501 }
            { rows := [] } = ((some t, none), db')
          ∧ t.Text = text501 ∧ t.Text.length = 501
          ∧ db'.rows.map (·.Text) = [text501])
      ∧ ((NewTodoUseCase (MockTodoRepository (none, none) (none, none) (none, none))).CreateTodo
            "id-1" { sec := 63839700000, nsec := 0, loc := .Local } { Text := text501 } []).2
          = [.Create (NewTodo "id-1" { sec := 63839700000, nsec := 0, loc := .Local }
              text501)] := by
  have hlen : text501.length = 501 := List.length_replicate 501 'a'
  have hne : text501 ≠ "" := by
    intro h
    rw [h] at hlen
    simp at hlen
  refine ⟨hlen, ⟨_, _, createTodo_sqlite_fresh _ rfl _ _ _ hne, rfl, hlen, rfl⟩, ?_⟩
  simp [TodoUseCase.CreateTodo, NewTodoUseCase, hne, MockTodoRepository,
    CreateTodoRequest.ToEntity]

/-- C17: `NewTodo` gives both timestamps the same instant, and for every Todo with
updatedAt equal to createdAt the conversion to the storage model and back, and the Todo
that a successful `Create` of the SQLite repository returns, still have updatedAt equal to
createdAt. -/
theorem updatedAt_eq_createdAt (uuid : String) (now : Time) (text : String) (todo : Todo)
    (x : Exec) (db : DB) (heq : todo.UpdatedAt = todo.CreatedAt) :
    (NewTodo uuid now text).UpdatedAt = (NewTodo uuid now text).CreatedAt
      ∧ (storeRoundTrip todo).UpdatedAt = (storeRoundTrip todo).CreatedAt
      ∧ ∀ created db', SQLiteTodoRepository.Create x todo db = ((some created, none), db') →
          created.UpdatedAt = created.CreatedAt := by
  refine ⟨rfl, ?_, ?_⟩
  · simp [storeRoundTrip, SQLiteTodoModel.FromEntity, SQLiteTodoModel.ToEntity, heq]
  · intro created db' hc
    have hok := gormCreate_ok_of_sqliteCreate x todo db db' (some created) hc
    rw [sqliteCreate_ok x todo db hok] at hc
    simp only [Prod.mk.injEq, Option.some.injEq, and_true] at hc
    rw [← hc.1]
    simp [filledModel, SQLiteTodoModel.FromEntity, SQLiteTodoModel.ToEntity, heq]

/-- C17 on a Todo of `NewTodo`: its conversion, and the Todo that `Create` returns for it
on an empty table. -/
theorem updatedAt_eq_createdAt_witness :
    (storeRoundTrip (NewTodo "id-1" { sec := 63839700000, nsec := 123, loc := .Local } "a")).UpdatedAt
        = (storeRoundTrip
            (NewTodo "id-1" { sec := 63839700000, nsec := 123, loc := .Local } "a")).CreatedAt
      ∧ (SQLiteTodoModel.ToEntity ⟨"id-1", "a", 1704103200, 1704103200⟩).1.UpdatedAt
        = (SQLiteTodoModel.ToEntity ⟨"id-1", "a", 1704103200, 1704103200⟩).1.CreatedAt :=
  ⟨(updatedAt_eq_createdAt "id-1" { sec := 63839700000, nsec := 123, loc := .Local } "a"
      (NewTodo "id-1" { sec := 63839700000, nsec := 123, loc := .Local } "a")
      { fault := none, curTime := 1700000000 } { rows := [] } rfl).2.1,
   (updatedAt_eq_createdAt "id-1" { sec := 63839700000, nsec := 123, loc := .Local } "a"
      (NewTodo "id-1" { sec := 63839700000, nsec := 123, loc := .Local } "a")
      { fault := none, curTime := 1700000000 } { rows := [] } rfl).2.2
      (SQLiteTodoModel.ToEntity ⟨"id-1", "a", 1704103200, 1704103200⟩).1
      { rows := [⟨"id-1", "a", 1704103200, 1704103200⟩] } (by decide)⟩

/-- C18, as stated, fails: two calls of `NewTodo` with the same text give the same id
when the random source returns the same 16 bytes twice, and also when it returns two
different draws that differ only in the bits that `uuid.New` overwrites with the
version. -/
theorem newTodo_ids_can_collide :
    (NewTodo (uuidString (uuidNew (List.replicate 16 0)))
        { sec := 63839700000, nsec := 1, loc := .Local } "a").ID
      = (NewTodo (uuidString (uuidNew (List.replicate 16 0)))
        { sec := 63839700000, nsec := 2, loc := .Local } "a").ID
    ∧ isUUID [0, 0, 0, 0, 0, 0, 16, 0, 0, 0, 0, 0, 0, 0, 0, 0]
    ∧ [0, 0, 0, 0, 0, 0, 16, 0, 0, 0, 0, 0, 0, 0, 0, 0] ≠ List.replicate 16 0
    ∧ (NewTodo (uuidString (uuidNew [0, 0, 0, 0, 0, 0, 16, 0, 0, 0, 0, 0, 0, 0, 0, 0]))
        { sec := 63839700000, nsec := 1, loc := .Local } "a").ID
      = (NewTodo (uuidString (uuidNew (List.replicate 16 0)))
        { sec := 63839700000, nsec := 2, loc := .Local } "a").ID := by
  decide

/-- C18, amended: a Todo of `NewTodo` (and of `CreateTodoRequest.ToEntity`) has the id that
`uuid.New().String()` generated from the random source: it has 36 characters, so it is
not empty, and it is the same whatever the text of the request; the ids of two Todos are
different exactly when the two generated UUID values are different, also for equal
texts. -/
theorem newTodo_id_generated (rnd1 rnd2 : List Nat) (now1 now2 : Time) (text1 text2 : String)
    (h1 : isUUID rnd1) (h2 : isUUID rnd2) :
    (NewTodo (uuidString (uuidNew rnd1)) now1 text1).ID ≠ ""
      ∧ (NewTodo (uuidString (uuidNew rnd1)) now1 text1).ID.length = 36
      ∧ (∀ req : CreateTodoRequest,
          (req.ToEntity (uuidString (uuidNew rnd1)) now1).ID
            = (NewTodo (uuidString (uuidNew rnd1)) now1 text1).ID)
      ∧ ((NewTodo (uuidString (uuidNew rnd1)) now1 text1).ID
            ≠ (NewTodo (uuidString (uuidNew rnd2)) now2 text2).ID
          ↔ uuidNew rnd1 ≠ uuidNew rnd2) := by
  have hlen : (uuidString (uuidNew rnd1)).length = 36 :=
    uuidString_length _ (uuidNew_isUUID rnd1 h1).1
  refine ⟨?_, hlen, fun _ => rfl, ?_⟩
  · intro h
    have h' : (uuidString (uuidNew rnd1)) = "" := h
    rw [h'] at hlen
    simp at hlen
  · constructor
    · intro hne heq
      apply hne
      show uuidString (uuidNew rnd1) = uuidString (uuidNew rnd2)
      rw [heq]
    · intro hne heq
      exact hne (uuidString_inj _ _ (uuidNew_isUUID rnd1 h1) (uuidNew_isUUID rnd2 h2) heq)

/-- C18, amended, on two draws of the random source that give different UUID values. -/
theorem newTodo_id_generated_witness :
    (NewTodo (uuidString (uuidNew [0, 1, 2, 3, 4, 5, 6, 7, 8, 9, 10, 11, 12, 13, 14, 15]))
        { sec := 63839700000, nsec := 1, loc := .Local } "a").ID.length = 36
      ∧ (NewTodo (uuidString (uuidNew [0, 1, 2, 3, 4, 5, 6, 7, 8, 9, 10, 11, 12, 13, 14, 15]))
          { sec := 63839700000, nsec := 1, loc := .Local } "a").ID
        ≠ (NewTodo (uuidString (uuidNew [0, 1, 2, 3, 4, 5, 6, 7, 8, 9, 10, 11, 12, 13, 14, 16]))
          { sec := 63839700000, nsec := 1, loc := .Local } "a").ID :=
  ⟨(newTodo_id_generated [0, 1, 2, 3, 4, 5, 6, 7, 8, 9, 10, 11, 12, 13, 14, 15]
      [0, 1, 2, 3, 4, 5, 6, 7, 8, 9, 10, 11, 12, 13, 14, 16]
      { sec := 63839700000, nsec := 1, loc := .Local }
      { sec := 63839700000, nsec := 1, loc := .Local } "a" "a" (by decide) (by decide)).2.1,
   (newTodo_id_generated [0, 1, 2, 3, 4, 5, 6, 7, 8, 9, 10, 11, 12, 13, 14, 15]
      [0, 1, 2, 3, 4, 5, 6, 7, 8, 9, 10, 11, 12, 13, 14, 16]
      { sec := 63839700000, nsec := 1, loc := .Local }
      { sec := 63839700000, nsec := 1, loc := .Local } "a" "a" (by decide) (by decide)).2.2.2.2
      (by decide)⟩

/-- C19: for every stored model whose two second counts are `int64` values, `ToEntity`
returns no error and a Todo with the model's id and text and with timestamps whose Unix
seconds are the model's created_at and updated_at, and `FromEntity` of that Todo, on any
receiver, gives the model back. -/
theorem toEntity_fromEntity_roundtrip (m receiver : SQLiteTodoModel)
    (hc : isInt64 m.CreatedAt) (hu : isInt64 m.UpdatedAt) :
    m.ToEntity.2 = none
      ∧ m.ToEntity.1.ID = m.ID ∧ m.ToEntity.1.Text = m.Text
      ∧ m.ToEntity.1.CreatedAt.Unix = m.CreatedAt
      ∧ m.ToEntity.1.UpdatedAt.Unix = m.UpdatedAt
      ∧ receiver.FromEntity m.ToEntity.1 = m := by
  have h1 : m.ToEntity.1.CreatedAt.Unix = m.CreatedAt := unix_timeFromUnix _ hc
  have h2 : m.ToEntity.1.UpdatedAt.Unix = m.UpdatedAt := unix_timeFromUnix _ hu
  refine ⟨rfl, rfl, rfl, h1, h2, ?_⟩
  simp only [SQLiteTodoModel.FromEntity, h1, h2]
  rfl

/-- C19 at the largest and the smallest `int64`, at a negative second count and at the
row of the integration test. -/
theorem toEntity_fromEntity_roundtrip_witness :
    SQLiteTodoModel.zero.FromEntity (SQLiteTodoModel.ToEntity
        { ID := "x", Text := " t ", CreatedAt := 9223372036854775807,
          UpdatedAt := -9223372036854775808 }).1
      = { ID := "x", Text := " t ", CreatedAt := 9223372036854775807,
          UpdatedAt := -9223372036854775808 }
    ∧ SQLiteTodoModel.zero.FromEntity (SQLiteTodoModel.ToEntity
        { ID := "test-id", Text := "Test todo", CreatedAt := 1609459200,
          UpdatedAt := -1 }).1
      = { ID := "test-id", Text := "Test todo", CreatedAt := 1609459200, UpdatedAt := -1 } :=
  ⟨(toEntity_fromEntity_roundtrip _ SQLiteTodoModel.zero (by decide) (by decide)).2.2.2.2.2,
   (toEntity_fromEntity_roundtrip _ SQLiteTodoModel.zero (by decide) (by decide)).2.2.2.2.2⟩

/-- C20, as stated, fails for the value `Create` returns: a Todo stamped half a second
after 1970-01-01 00:00:00 UTC has the Unix second 0, the store fills the zero time
columns from its clock on insert, and `Create` returns a Todo whose createdAt is the
clock's second, which is after the original createdAt and is not the converted value. -/
theorem create_returns_clock_at_unix_zero :
    (NewTodo "id-1" { sec := 62135596800, nsec := 500000000, loc := .UTC } "a").CreatedAt.Unix = 0
      ∧ ∃ created, SQLiteTodoRepository.Create { fault := none, curTime := 1700000000 }
            (NewTodo "id-1" { sec := 62135596800, nsec := 500000000, loc := .UTC } "a")
            { rows := [] }
          = ((some created, none),
              { rows := [{ ID := "id-1", Text := "a", CreatedAt := 1700000000,
                           UpdatedAt := 1700000000 }] })
        ∧ created.CreatedAt.Unix = 1700000000
        ∧ created.CreatedAt.After
            (NewTodo "id-1" { sec := 62135596800, nsec := 500000000, loc := .UTC } "a").CreatedAt
          = true
        ∧ created ≠ storeRoundTrip
            (NewTodo "id-1" { sec := 62135596800, nsec := 500000000, loc := .UTC } "a") := by
  refine ⟨by decide, (SQLiteTodoModel.ToEntity ⟨"id-1", "a", 1700000000, 1700000000⟩).1,
    by decide, by decide, by decide, by decide⟩

/-- C20, amended: converting a Todo with well-typed timestamps to the storage model and
back keeps id and text and replaces each timestamp by the local time of the same second
with nanosecond 0. For createdAt this value is not after the original, no whole-second
time that is not after the original is after it, and the original is less than a second
(its nanosecond) later. The conversion is idempotent and monotone in createdAt, and it is
the value that a successful `Create` returns whenever the Unix seconds of createdAt and
updatedAt are both non-zero. -/
theorem storeRoundTrip_normalises (todo other : Todo)
    (hc : todo.CreatedAt.wellTyped) (hu : todo.UpdatedAt.wellTyped)
    (ho : other.CreatedAt.wellTyped) :
    (storeRoundTrip todo).ID = todo.ID ∧ (storeRoundTrip todo).Text = todo.Text
      ∧ (storeRoundTrip todo).CreatedAt
          = { sec := todo.CreatedAt.sec, nsec := 0, loc := .Local }
      ∧ (storeRoundTrip todo).UpdatedAt
          = { sec := todo.UpdatedAt.sec, nsec := 0, loc := .Local }
      ∧ (storeRoundTrip todo).CreatedAt.After todo.CreatedAt = false
      ∧ (∀ w : Time, w.nsec = 0 → w.After todo.CreatedAt = false →
          w.After (storeRoundTrip todo).CreatedAt = false)
      ∧ (0 ≤ (todo.CreatedAt.sec - (storeRoundTrip todo).CreatedAt.sec) * 1000000000
            + ((todo.CreatedAt.nsec : Int) - (storeRoundTrip todo).CreatedAt.nsec)
          ∧ (todo.CreatedAt.sec - (storeRoundTrip todo).CreatedAt.sec) * 1000000000
            + ((todo.CreatedAt.nsec : Int) - (storeRoundTrip todo).CreatedAt.nsec) < 1000000000)
      ∧ storeRoundTrip (storeRoundTrip todo) = storeRoundTrip todo
      ∧ (todo.CreatedAt.After other.CreatedAt = false →
          (storeRoundTrip todo).CreatedAt.After (storeRoundTrip other).CreatedAt = false)
      ∧ ∀ (x : Exec) (db db' : DB) (created : Todo),
          todo.CreatedAt.Unix ≠ 0 → todo.UpdatedAt.Unix ≠ 0 →
          SQLiteTodoRepository.Create x todo db = ((some created, none), db') →
          created = storeRoundTrip todo := by
  have ec : (storeRoundTrip todo).CreatedAt
      = { sec := todo.CreatedAt.sec, nsec := 0, loc := .Local } :=
    timeFromUnix_unix todo.CreatedAt hc.1
  have eu : (storeRoundTrip todo).UpdatedAt
      = { sec := todo.UpdatedAt.sec, nsec := 0, loc := .Local } :=
    timeFromUnix_unix todo.UpdatedAt hu.1
  have eo : (storeRoundTrip other).CreatedAt
      = { sec := other.CreatedAt.sec, nsec := 0, loc := .Local } :=
    timeFromUnix_unix other.CreatedAt ho.1
  have hn := hc.2
  refine ⟨rfl, rfl, ec, eu, ?_, ?_, ?_, ?_, ?_, ?_⟩
  · rw [ec]
    simp [Time.After]
  · intro w hw hwa
    rw [ec]
    simp only [Time.After, hw, Bool.or_eq_false_iff, Bool.and_eq_false_iff,
      decide_eq_false_iff_not] at hwa ⊢
    constructor
    · exact hwa.1
    · right
      omega
  · rw [ec]
    simp only [sub_self, zero_mul, zero_add]
    omega
  · have h1 : (timeFromUnix todo.CreatedAt.Unix).Unix = todo.CreatedAt.Unix :=
      unix_timeFromUnix _ (wrapInt64_isInt64 _)
    have h2 : (timeFromUnix todo.UpdatedAt.Unix).Unix = todo.UpdatedAt.Unix :=
      unix_timeFromUnix _ (wrapInt64_isInt64 _)
    simp [storeRoundTrip, SQLiteTodoModel.FromEntity, SQLiteTodoModel.ToEntity, h1, h2]
  · intro hnot
    rw [ec, eo]
    simp only [Time.After, Bool.or_eq_false_iff, Bool.and_eq_false_iff,
      decide_eq_false_iff_not] at hnot ⊢
    constructor
    · exact hnot.1
    · right
      omega
  · intro x db db' created hcz huz hcreate
    have hok := gormCreate_ok_of_sqliteCreate x todo db db' (some created) hcreate
    rw [sqliteCreate_ok x todo db hok] at hcreate
    simp only [Prod.mk.injEq, Option.some.injEq, and_true] at hcreate
    rw [← hcreate.1]
    simp [storeRoundTrip, filledModel, SQLiteTodoModel.FromEntity, SQLiteTodoModel.ToEntity,
      autoTime, hcz, huz]


/-- C20, amended, on a Todo stamped a tenth of a second before 1969-12-31 23:58:21 UTC
and updated in 2024. -/
theorem storeRoundTrip_normalises_witness :
    (storeRoundTrip
        ⟨"id-1", " a ", ⟨62135596700, 900000000, .UTC⟩, ⟨63839700000, 5, .Local⟩⟩).CreatedAt
      = { sec := 62135596700, nsec := 0, loc := .Local }
    ∧ storeRoundTrip (storeRoundTrip
        ⟨"id-1", " a ", ⟨62135596700, 900000000, .UTC⟩, ⟨63839700000, 5, .Local⟩⟩)
      = storeRoundTrip
        ⟨"id-1", " a ", ⟨62135596700, 900000000, .UTC⟩, ⟨63839700000, 5, .Local⟩⟩ :=
  ⟨(storeRoundTrip_normalises
      ⟨"id-1", " a ", ⟨62135596700, 900000000, .UTC⟩, ⟨63839700000, 5, .Local⟩⟩
      (NewTodo "id-2" { sec := 63839700000, nsec := 0, loc := .Local } "b")
      (by decide) (by decide) (by decide)).2.2.1,
   (storeRoundTrip_normalises
      ⟨"id-1", " a ", ⟨62135596700, 900000000, .UTC⟩, ⟨63839700000, 5, .Local⟩⟩
      (NewTodo "id-2" { sec := 63839700000, nsec := 0, loc := .Local } "b")
      (by decide) (by decide) (by decide)).2.2.2.2.2.2.2.1⟩

/-! ### Facts about the Todos that the SQLite repository returns -/

/-- The contract timestamp of a time with nanosecond 0 ends with ".000Z". -/
theorem formatTimeForContract_suffix_of_nsec_zero (t : Time) (h : t.nsec = 0) :
    ".000Z".data <:+ (formatTimeForContract t).data := by
  rw [formatTimeForContract_fields t (by omega), h]
  refine ⟨appendInt (absDate t.UTC.abs).year 4 ++ ('-' :: (fixedDigits 2 (absDate t.UTC.abs).month
        ++ ('-' :: (fixedDigits 2 (absDate t.UTC.abs).day
        ++ ('T' :: (fixedDigits 2 (absClock t.UTC.abs).hour
        ++ (':' :: (fixedDigits 2 (absClock t.UTC.abs).min
        ++ (':' :: fixedDigits 2 (absClock t.UTC.abs).sec))))))))), ?_⟩
  have e : fixedDigits 3 (0 / 1000000) = ['0', '0', '0'] := by decide
  rw [e]
  simp [List.append_assoc]

/-- A Todo that `Create` returns is the entity of a stored model. -/
theorem sqliteCreate_result_toEntity (x : Exec) (todo : Todo) (db db' : DB) (created : Todo)
    (h : SQLiteTodoRepository.Create x todo db = ((some created, none), db')) :
    ∃ m : SQLiteTodoModel, created = m.ToEntity.1 := by
  have hok := gormCreate_ok_of_sqliteCreate x todo db db' (some created) h
  rw [sqliteCreate_ok x todo db hok] at h
  simp only [Prod.mk.injEq, Option.some.injEq, and_true] at h
  exact ⟨_, h.1.symm⟩

/-- Every Todo that `GetAll` returns is the entity of a stored model. -/
theorem sqliteGetAll_result_toEntity (x : Exec) (db : DB) (todos : List Todo)
    (h : (SQLiteTodoRepository.GetAll x db).1 = (some todos, none)) :
    ∀ t ∈ todos, ∃ m : SQLiteTodoModel, m ∈ db.rows ∧ t = m.ToEntity.1 := by
  cases hf : x.fault with
  | some err =>
    simp [SQLiteTodoRepository.GetAll, gormFindOrdered, hf] at h
  | none =>
    rw [sqliteGetAll_ok x db hf] at h
    simp only [Prod.mk.injEq, Option.some.injEq, and_true] at h
    intro t ht
    rw [← h] at ht
    obtain ⟨m, hm, rfl⟩ := List.mem_map.1 ht
    exact ⟨m, (List.mem_insertionSort createdAtDesc).1 hm, rfl⟩

/-- A Todo that `GetByID` returns is the entity of a stored model. -/
theorem sqliteGetByID_result_toEntity (x : Exec) (id : String) (db : DB) (t : Todo)
    (h : (SQLiteTodoRepository.GetByID x id db).1 = (some t, none)) :
    ∃ m : SQLiteTodoModel, m ∈ db.rows ∧ t = m.ToEntity.1 := by
  cases hf : x.fault with
  | some err =>
    simp only [SQLiteTodoRepository.GetByID, gormFirstByID, hf] at h
    split at h <;> simp at h
  | none =>
    cases hrow : db.rows.find? (fun r => r.ID == id) with
    | none =>
      rw [sqliteGetByID_missing x id db hf hrow] at h
      simp at h
    | some row =>
      rw [sqliteGetByID_found x id db row hf hrow] at h
      simp only [Prod.mk.injEq, Option.some.injEq, and_true] at h
      exact ⟨row, List.mem_of_find?_eq_some hrow, h.symm⟩


/-! ### The claims on the not-found error and on stored timestamps -/

/-- C21: when the repository's `GetByID` fails with an error that is or wraps
`ErrTodoNotFound`, the error `GetTodoByID` returns is the plain error "todo with ID <id>
not found": it is determined by the id alone, `errors.Unwrap` gives nothing for it and
`errors.Is` does not match it with `ErrTodoNotFound`. When the repository fails with any
other error `e`, the returned error has the message "failed to get todo: " followed by
`e`'s message, `errors.Unwrap` gives `e`, and `errors.Is` finds `e`'s own sentinels
through it. -/
theorem getTodoByID_not_found_wraps_nothing {σ : Type}
    (repoN : TodoRepository σ) (sN sN' : σ) (idN : String) (rN : Option Todo) (eN : GoError)
    (repoG : TodoRepository σ) (sG sG' : σ) (idG : String) (rG : Option Todo) (eG : GoError)
    (hidN : idN ≠ "") (hN : repoN.GetByID idN sN = ((rN, some eN), sN'))
    (hisN : errorsIs eN ErrTodoNotFound = true)
    (hidG : idG ≠ "") (hG : repoG.GetByID idG sG = ((rG, some eG), sG'))
    (hisG : errorsIs eG ErrTodoNotFound = false) :
    (∃ n, (NewTodoUseCase repoN).GetTodoByID idN sN = ((none, some n), sN')
        ∧ n = GoError.errorString ("todo with ID " ++ idN ++ " not found")
        ∧ errorsUnwrap n = none
        ∧ errorsIs n ErrTodoNotFound = false
        ∧ errorsIs n eN = false)
      ∧ ∃ g, (NewTodoUseCase repoG).GetTodoByID idG sG = ((none, some g), sG')
        ∧ g.Error = "failed to get todo: " ++ eG.Error
        ∧ errorsUnwrap g = some eG
        ∧ ∀ target : GoError, errorsIs eG target = true → errorsIs g target = true := by
  refine ⟨⟨_, ?_, rfl, rfl, rfl, rfl⟩, ⟨fmtErrorfW "failed to get todo: " eG, ?_, rfl, rfl, ?_⟩⟩
  · rw [getTodoByID_of_repo_err repoN idN sN sN' rN eN hidN hN, if_pos hisN]
  · rw [getTodoByID_of_repo_err repoG idG sG sG' rG eG hidG hG, hisG]
    simp
  · intro target ht
    simp [fmtErrorfW, errorsIs, ht]

/-- C21 on two mocks of the unit test: one returns the not-found signal wrapped in
another error, one returns the sentinel `ErrTodoExists`. -/
theorem getTodoByID_not_found_wraps_nothing_witness :
    (∃ n, (NewTodoUseCase (MockTodoRepository (none, none) (none, none)
            (none, some (fmtErrorfW "lookup: " ErrTodoNotFound)))).GetTodoByID "k" []
          = ((none, some n), [.GetByID "k"])
        ∧ n = GoError.errorString ("todo with ID " ++ "k" ++ " not found")
        ∧ errorsUnwrap n = none
        ∧ errorsIs n ErrTodoNotFound = false
        ∧ errorsIs n (fmtErrorfW "lookup: " ErrTodoNotFound) = false)
      ∧ ∃ g, (NewTodoUseCase (MockTodoRepository (none, none) (none, none)
            (none, some ErrTodoExists))).GetTodoByID "k" []
          = ((none, some g), [.GetByID "k"])
        ∧ g.Error = "failed to get todo: " ++ ErrTodoExists.Error
        ∧ errorsUnwrap g = some ErrTodoExists
        ∧ ∀ target : GoError, errorsIs ErrTodoExists target = true →
            errorsIs g target = true :=
  getTodoByID_not_found_wraps_nothing _ [] _ "k" none _ _ [] _ "k" none _
    (by decide) rfl (by decide) (by decide) rfl (by decide)

/-- C22: for every stored model, the createdAt string of the contract response of its
entity ends with ".000Z"; so it does for the Todo that a successful `Create` returns, for
every Todo in a result of `GetAll` and for the Todo that `GetByID` returns. -/
theorem contract_createdAt_ends_with_000Z (m : SQLiteTodoModel) :
    ".000Z".data <:+ (ToContractTodoResponse m.ToEntity.1).CreatedAt.data
      ∧ (∀ (x : Exec) (todo created : Todo) (db db' : DB),
          SQLiteTodoRepository.Create x todo db = ((some created, none), db') →
          ".000Z".data <:+ (ToContractTodoResponse created).CreatedAt.data)
      ∧ (∀ (x : Exec) (db : DB) (todos : List Todo),
          (SQLiteTodoRepository.GetAll x db).1 = (some todos, none) →
          ∀ t ∈ todos, ".000Z".data <:+ (ToContractTodoResponse t).CreatedAt.data)
      ∧ ∀ (x : Exec) (id : String) (db : DB) (t : Todo),
          (SQLiteTodoRepository.GetByID x id db).1 = (some t, none) →
          ".000Z".data <:+ (ToContractTodoResponse t).CreatedAt.data := by
  have key : ∀ r : SQLiteTodoModel,
      ".000Z".data <:+ (ToContractTodoResponse r.ToEntity.1).CreatedAt.data :=
    fun r => formatTimeForContract_suffix_of_nsec_zero (timeFromUnix r.CreatedAt) rfl
  refine ⟨key m, ?_, ?_, ?_⟩
  · intro x todo created db db' h
    obtain ⟨r, rfl⟩ := sqliteCreate_result_toEntity x todo db db' created h
    exact key r
  · intro x db todos h t ht
    obtain ⟨r, -, rfl⟩ := sqliteGetAll_result_toEntity x db todos h t ht
    exact key r
  · intro x id db t h
    obtain ⟨r, -, rfl⟩ := sqliteGetByID_result_toEntity x id db t h
    exact key r

set_option maxRecDepth 100000 in
/-- C22 on the row of the contract test, and on a row of year 10000 whose string is
longer than 24 characters. -/
theorem contract_createdAt_ends_with_000Z_witness :
    (ToContractTodoResponse (SQLiteTodoModel.ToEntity
        ⟨"uuid-123", "buy some milk", 1704103200, 1704103200⟩).1).CreatedAt
      = "2024-01-01T10:00:00.000Z"
    ∧ ".000Z".data <:+ (ToContractTodoResponse (SQLiteTodoModel.ToEntity
        ⟨"uuid-123", "buy some milk", 1704103200, 1704103200⟩).1).CreatedAt.data
    ∧ ".000Z".data <:+ (ToContractTodoResponse (SQLiteTodoModel.ToEntity
        ⟨"uuid-124", "later", 253402300800, 0⟩).1).CreatedAt.data :=
  ⟨by decide,
   (contract_createdAt_ends_with_000Z ⟨"uuid-123", "buy some milk", 1704103200, 1704103200⟩).1,
   (contract_createdAt_ends_with_000Z ⟨"uuid-124", "later", 253402300800, 0⟩).1⟩

end TodoBackend
